import Mathlib

/-!
Shallow embedding of the JustD3D12Compute core subsystem (src/core.cpp,
include/jd3d12/utils.hpp, include/jd3d12/core.hpp) in Lean 4, together with
theorems settling the specification claims about it.

Modelling conventions:
* `Result` is the library's `HRESULT`-compatible signed 32-bit status type,
  represented as `Int`; `Failed r` is `r < 0` exactly as in `utils.hpp`.
* `size_t`/`uint32_t` values are `Nat`; where the C++ arithmetic can wrap
  (offset+count bound checks, `LimitRange` subtraction) the operation is taken
  modulo `2 ^ 64` explicitly.
* Buffer identity (the `BufferImpl*` pointer used as a map key and compared
  with `==`) is modelled by a numeric `id` field.
* Calls into the native D3D12 API (resource creation, command-list close and
  reset, fence signalling) are modelled as succeeding; their externally caused
  failure codes are outside the scope of the claims.  The GPU fence is
  modelled by `submittedFenceValue`/`fenceCompletedValue` counters; a bounded
  wait on an unsignalled fence is modelled as expiring (`WAIT_TIMEOUT`), an
  infinite wait as completing.
* Commands recorded into the command list are accumulated in `cmds`; calls to
  `EnsureCommandListState` are additionally logged in `ensureTrace` so that
  "forces a flush and wait" is observable.
-/

/-- Status type of the library, binary compatible with `HRESULT` (`utils.hpp`:
`typedef int32_t Result`). -/
abbrev Result : Type := Int

/-- Main code for success (`utils.hpp` `kSuccess = 0`). -/
def kSuccess : Result := 0

/-- The no-work-done status (`utils.hpp` `kFalse = 1`). -/
def kFalse : Result := 1

/-- The not-ready status (`utils.hpp`: `int32_t(0x213D0000u | 0x1)`), a
positive (success-class) code. -/
def kNotReady : Result := 0x213D0001

/-- The too-many-objects error (`utils.hpp`: `int32_t(0xA13D0000u | 0x1)`),
negative as an `int32_t`. -/
def kErrorTooManyObjects : Result := (0xA13D0001 : Int) - 0x100000000

/-- The invalid-argument error (`utils.hpp`: `int32_t(0x80070057u)`). -/
def kErrorInvalidArgument : Result := (0x80070057 : Int) - 0x100000000

/-- The unexpected error (`utils.hpp`: `int32_t(0x8000FFFFu)`). -/
def kErrorUnexpected : Result := (0x8000FFFF : Int) - 0x100000000

/-- Failure predicate (`utils.hpp`: `Failed(res) := res < 0`). -/
def Failed (res : Result) : Prop := res < 0

instance (res : Result) : Decidable (Failed res) :=
  inferInstanceAs (Decidable (res < 0))

/-- The infinite-timeout sentinel (`utils.hpp`: `kTimeoutInfinite = 0xFFFFFFFFu`). -/
def kTimeoutInfinite : Nat := 0xFFFFFFFF

/-- The do-not-wait command flag (`core.hpp`: `kCommandFlagDontWait = 0x1`). -/
def kCommandFlagDontWait : Nat := 0x1

/-- Modulus of `size_t` arithmetic (64-bit). -/
def usizeMod : Nat := 2 ^ 64

/-- `SIZE_MAX`. -/
def sizeMax : Nat := 2 ^ 64 - 1

/-- `UINT32_MAX`, the sentinel descriptor index meaning "view not created". -/
def uint32Max : Nat := 0xFFFFFFFF

/-- Wrapping `size_t` addition, for the `offset + count <= size` checks where
the C++ addition may overflow. -/
def addW (a b : Nat) : Nat := (a + b) % usizeMod

/-- Wrapping `size_t` subtraction `a - b` for `a b < 2 ^ 64`, used by
`LimitRange`. -/
def subW (a b : Nat) : Nat := (usizeMod + a - b) % usizeMod

/-- Population count of a 32-bit value (`types.cpp` `CountBitsSet`); all its
call sites pass values below `2 ^ 32`, for which counting the first 32 bits is
exact. -/
def countBitsSet (a : Nat) : Nat :=
  ((List.range 32).filter (fun i => a.testBit i)).length

/-! Buffer flags (`core.hpp` enum `BufferFlags`). -/

def kBufferUsageMaskCpu : Nat := 0x7
def kBufferUsageFlagCpuRead : Nat := 0x1
def kBufferUsageFlagCpuSequentialWrite : Nat := 0x2
def kBufferUsageMaskCopy : Nat := 0x18
def kBufferUsageFlagCopySrc : Nat := 0x8
def kBufferUsageFlagCopyDst : Nat := 0x10
def kBufferUsageMaskShader : Nat := 0xE0
def kBufferUsageFlagShaderConstant : Nat := 0x20
def kBufferUsageFlagShaderResource : Nat := 0x40
def kBufferUsageFlagShaderRWResource : Nat := 0x80
def kBufferFlagTyped : Nat := 0x100
def kBufferFlagStructured : Nat := 0x200
def kBufferFlagByteAddress : Nat := 0x400

/-- Bits per element of each `Format` enum value, from the `kFormatDescRecords`
table in `utils.cpp`, condensed over the ranges of consecutive enum values that
share a `bits_per_element`; `none` for the values that are not in the enum
(`GetFormatDesc` returns null exactly there). -/
def formatBitsPerElement (f : Nat) : Option Nat :=
  if f = 0 then some 0
  else if f ≤ 4 then some 128
  else if f ≤ 8 then some 96
  else if f ≤ 22 then some 64
  else if f ≤ 47 then some 32
  else if f ≤ 59 then some 16
  else if f ≤ 65 then some 8
  else if f = 66 then some 1
  else if f ≤ 69 then some 32
  else if f ≤ 72 then some 4
  else if f ≤ 78 then some 8
  else if f ≤ 81 then some 4
  else if f ≤ 84 then some 8
  else if f ≤ 86 then some 16
  else if f ≤ 93 then some 32
  else if f ≤ 99 then some 8
  else if f = 115 then some 16
  else if f = 191 then some 16
  else none

/-- Byte range (`utils.hpp` `struct Range`). -/
structure Range where
  first : Nat
  count : Nat
deriving DecidableEq, Repr

/-- The full unbounded range (`utils.hpp` `kFullRange = {0, SIZE_MAX}`). -/
def kFullRange : Range := ⟨0, sizeMax⟩

/-- The empty range (`utils.hpp` `kEmptyRange = {0, 0}`). -/
def kEmptyRange : Range := ⟨0, 0⟩

/-- Range normalization (`utils.hpp` `LimitRange`): an unbounded count is
replaced by `real_size - range.first` in wrapping `size_t` arithmetic. -/
def limitRange (range : Range) (realSize : Nat) : Range :=
  if range.count = sizeMax then ⟨range.first, subW realSize range.first⟩ else range

/-- Buffer description (`core.hpp` `struct BufferDesc`); `elementFormat` is the
numeric value of the `Format` enum member (`kUnknown = 0`). -/
structure BufferDesc where
  flags : Nat
  size : Nat
  elementFormat : Nat
  structureSize : Nat
deriving DecidableEq, Repr

/-- Element size in bytes (`core.cpp` `BufferImpl::GetElementSize`). -/
def getElementSize (desc : BufferDesc) : Nat :=
  if desc.flags &&& kBufferFlagTyped ≠ 0 then
    match formatBitsPerElement desc.elementFormat with
    | some bits => if bits % 8 = 0 then bits / 8 else 0
    | none => 0
  else if desc.flags &&& kBufferFlagStructured ≠ 0 then desc.structureSize
  else if desc.flags &&& kBufferFlagByteAddress ≠ 0 then 4
  else 0

/-- Memory-placement strategy (`core.cpp` `enum class BufferStrategy`). -/
inductive BufferStrategy where
  | kNone
  | kUpload
  | kGpuUpload
  | kDefault
  | kReadback
deriving DecidableEq, Repr

/-- Validity of the element format of a typed buffer, as checked by
`InitParameters`: `GetFormatDesc` returns a record whose `bits_per_element` is
positive and a multiple of 8. -/
def validTypedFormat (f : Nat) : Bool :=
  match formatBitsPerElement f with
  | some bits => bits > 0 && bits % 8 == 0
  | none => false

/-- Parameter validation and strategy selection at buffer creation
(`core.cpp` `BufferImpl::InitParameters`); returns the result code together
with the `strategy_` member as left by the call.  Every `JD3D12_ASSERT_OR_RETURN`
failure returns `kErrorInvalidArgument`. -/
def initParameters (desc : BufferDesc) (initialDataSize : Nat) : Result × BufferStrategy :=
  if ¬(desc.flags &&& (kBufferUsageMaskCpu ||| kBufferUsageMaskCopy ||| kBufferUsageMaskShader) ≠ 0) then
    (kErrorInvalidArgument, .kNone)
  else if ¬(countBitsSet (desc.flags &&& kBufferUsageMaskCpu) ≤ 1) then
    (kErrorInvalidArgument, .kNone)
  else if ¬(countBitsSet (desc.flags &&& (kBufferFlagTyped ||| kBufferFlagStructured ||| kBufferFlagByteAddress)) ≤ 1) then
    (kErrorInvalidArgument, .kNone)
  else if ¬(desc.size > 0 ∧ desc.size % 4 = 0) then
    (kErrorInvalidArgument, .kNone)
  else if ¬(initialDataSize ≤ desc.size) then
    (kErrorInvalidArgument, .kNone)
  else if ¬(initialDataSize > 0 → desc.flags &&& kBufferUsageFlagCpuSequentialWrite ≠ 0) then
    (kErrorInvalidArgument, .kNone)
  else if ¬((desc.flags &&& kBufferFlagTyped ≠ 0) ↔ desc.elementFormat ≠ 0) then
    (kErrorInvalidArgument, .kNone)
  else if ¬(desc.flags &&& kBufferFlagTyped ≠ 0 → validTypedFormat desc.elementFormat = true) then
    (kErrorInvalidArgument, .kNone)
  else if ¬((desc.flags &&& kBufferFlagStructured ≠ 0) ↔ desc.structureSize > 0) then
    (kErrorInvalidArgument, .kNone)
  else if ¬(desc.flags &&& kBufferFlagStructured ≠ 0 → desc.structureSize % 4 = 0) then
    (kErrorInvalidArgument, .kNone)
  else if ¬(getElementSize desc > 0 → desc.size % getElementSize desc = 0) then
    (kErrorInvalidArgument, .kNone)
  else if desc.flags &&& kBufferUsageFlagShaderRWResource ≠ 0 then
    if ¬(desc.flags &&& kBufferUsageFlagCpuRead = 0) then
      (kErrorInvalidArgument, .kDefault)
    else (kSuccess, .kDefault)
  else if desc.flags &&& kBufferUsageFlagCpuSequentialWrite ≠ 0 then
    if ¬(desc.flags &&& kBufferUsageFlagCopyDst = 0) then
      (kErrorInvalidArgument, .kUpload)
    else (kSuccess, .kUpload)
  else if desc.flags &&& kBufferUsageFlagCpuRead ≠ 0 then
    if ¬(desc.flags &&& kBufferUsageFlagCopySrc = 0) then
      (kErrorInvalidArgument, .kReadback)
    else if ¬(desc.flags &&& kBufferUsageMaskShader = 0) then
      (kErrorInvalidArgument, .kReadback)
    else (kSuccess, .kReadback)
  else (kSuccess, .kDefault)

/-- A created buffer (`core.cpp` `class BufferImpl` after a successful `Init`):
the description fields, the derived strategy, and whether the resource is
persistently mapped.  `id` models the `BufferImpl*` pointer identity and
`device` the owning `DeviceImpl*`. -/
structure Buffer where
  id : Nat
  device : Nat
  flags : Nat
  size : Nat
  elementFormat : Nat
  structureSize : Nat
  strategy : BufferStrategy
  persistentlyMapped : Bool
deriving DecidableEq, Repr

/-- Buffer creation (`core.cpp` `BufferImpl::Init`): validates the description
via `InitParameters`, derives the strategy, and persistently maps Upload,
GpuUpload and Readback allocations; the D3D12 `CreateCommittedResource` and
`Map` calls are modelled as succeeding. -/
def mkBuffer (id device : Nat) (desc : BufferDesc) (initialDataSize : Nat) : Option Buffer :=
  match initParameters desc initialDataSize with
  | (r, strat) =>
    if r = kSuccess then
      some { id := id, device := device, flags := desc.flags, size := desc.size,
             elementFormat := desc.elementFormat, structureSize := desc.structureSize,
             strategy := strat,
             persistentlyMapped :=
               match strat with
               | .kUpload | .kGpuUpload | .kReadback => true
               | _ => false }
    else none

/-- Element size of a created buffer, as `BufferImpl::GetElementSize` reads it
from the stored description. -/
def bufElementSize (b : Buffer) : Nat :=
  getElementSize ⟨b.flags, b.size, b.elementFormat, b.structureSize⟩

/-! Device-side state model. -/

/-- The subset of `D3D12_RESOURCE_STATES` the core uses: the five states that
`UseBuffer` is called with, plus the initial states `COMMON` (default heap) and
`GENERIC_READ` (upload heaps). -/
inductive D3DState where
  | common
  | genericRead
  | copySource
  | copyDest
  | nonPixelShaderResource
  | vertexAndConstantBuffer
  | unorderedAccess
deriving DecidableEq, Repr

/-- `kResourceUsageFlagRead` (`core.cpp` `enum ResourceUsageFlags`). -/
def kResourceUsageFlagRead : Nat := 0x1

/-- `kResourceUsageFlagWrite` (`core.cpp` `enum ResourceUsageFlags`). -/
def kResourceUsageFlagWrite : Nat := 0x2

/-- The usage flags `UseBuffer` derives from the requested state (the `switch`
in `DeviceImpl::UseBuffer`): read for copy-source / non-pixel-shader-resource /
vertex-and-constant-buffer, read and write for copy-dest / unordered-access;
the unreachable default keeps the initial read flag. -/
def usageFlagsForState (s : D3DState) : Nat :=
  match s with
  | .copySource | .nonPixelShaderResource | .vertexAndConstantBuffer =>
    kResourceUsageFlagRead
  | .copyDest | .unorderedAccess =>
    kResourceUsageFlagRead ||| kResourceUsageFlagWrite
  | _ => kResourceUsageFlagRead

/-- Per-buffer usage record (`core.cpp` `struct ResourceUsage`). -/
structure ResourceUsage where
  flags : Nat
  lastState : D3DState
deriving DecidableEq, Repr

/-- The `ResourceUsageMap` contents (`std::unordered_map<BufferImpl*,
ResourceUsage>`), as an association list keyed by buffer id. -/
abbrev ResourceUsageMap := List (Nat × ResourceUsage)

/-- Map lookup (`map_.find(buf)`). -/
def usageLookup (m : ResourceUsageMap) (bufId : Nat) : Option ResourceUsage :=
  (m.find? (fun p => p.1 == bufId)).map (fun p => p.2)

/-- `ResourceUsageMap::IsUsed`: whether the buffer has a recorded usage whose
flags intersect `usageFlags`. -/
def isUsed (m : ResourceUsageMap) (bufId : Nat) (usageFlags : Nat) : Bool :=
  match usageLookup m bufId with
  | none => false
  | some u => u.flags &&& usageFlags != 0

/-- Pointwise update of the record held for `bufId`. -/
def usageUpdate (m : ResourceUsageMap) (bufId : Nat) (f : ResourceUsage → ResourceUsage) :
    ResourceUsageMap :=
  m.map (fun p => if p.1 == bufId then (p.1, f p.2) else p)

/-- Command-list lifecycle state (`DeviceImpl::CommandListState`). -/
inductive CmdListState where
  | kNone
  | kRecording
  | kExecuting
deriving DecidableEq, Repr

/-- Commands recorded into the native command list, restricted to the kinds the
claims observe. -/
inductive GpuCmd where
  | resourceBarrierTransition (bufId : Nat) (stateBefore stateAfter : D3DState)
  | resourceBarrierUAV (bufId : Nat)
  | writeBufferImmediate (bufId : Nat) (dstByteOffset byteCount : Nat)
  | setDescriptorHeaps
  | setPipelineState (shaderId : Nat)
  | setComputeRootSignature
  | setComputeRootDescriptorTable (rootParamIndex descriptorIndex : Nat)
  | dispatch (x y z : Nat)
deriving DecidableEq, Repr

/-- One binding-cache slot (`core.cpp` `struct Binding`); the defaults mirror
the C++ member initializers (`buffer = nullptr`, `byte_range = kFullRange`,
`descriptor_index = UINT32_MAX`). -/
structure Binding where
  buffer : Option Buffer := none
  byteRange : Range := kFullRange
  descriptorIndex : Nat := uint32Max
deriving DecidableEq, Repr

/-- The default-initialized slot `Binding{}`. -/
def defaultBinding : Binding := {}

abbrev kMaxCBVCount : Nat := 16
abbrev kMaxSRVCount : Nat := 16
abbrev kMaxUAVCount : Nat := 8

/-- `MainRootSignature::GetRootParamIndexForCBV`. -/
def rootParamIndexForCBV (i : Nat) : Nat := i

/-- `MainRootSignature::GetRootParamIndexForSRV`. -/
def rootParamIndexForSRV (i : Nat) : Nat := kMaxCBVCount + i

/-- `MainRootSignature::GetRootParamIndexForUAV`. -/
def rootParamIndexForUAV (i : Nat) : Nat := kMaxCBVCount + kMaxSRVCount + i

/-- The binding cache (`core.cpp` `struct BindingState`): fixed arrays of
constant (CBV), read-only (SRV) and read-write (UAV) slots. -/
structure BindingState where
  cbv : Fin kMaxCBVCount → Binding
  srv : Fin kMaxSRVCount → Binding
  uav : Fin kMaxUAVCount → Binding

/-- The initial binding cache: every slot default-initialized. -/
def initialBindingState : BindingState :=
  ⟨fun _ => defaultBinding, fun _ => defaultBinding, fun _ => defaultBinding⟩

/-- `BindingState::ResetDescriptors`: set every slot's cached descriptor index
back to the unset sentinel. -/
def BindingState.resetDescriptors (bs : BindingState) : BindingState :=
  ⟨fun i => { bs.cbv i with descriptorIndex := uint32Max },
   fun i => { bs.srv i with descriptorIndex := uint32Max },
   fun i => { bs.uav i with descriptorIndex := uint32Max }⟩

/-- Whether a slot holds the buffer with the given identity (the C++ pointer
comparison `bindings[slot].buffer == buf`). -/
def bindingHolds (b : Binding) (bufId : Nat) : Bool :=
  match b.buffer with
  | some bb => bb.id == bufId
  | none => false

/-- `BindingState::IsBufferBound`: whether any CBV, SRV or UAV slot holds the
buffer. -/
def BindingState.isBufferBound (bs : BindingState) (bufId : Nat) : Bool :=
  ((List.finRange kMaxCBVCount).any (fun i => bindingHolds (bs.cbv i) bufId)) ||
  ((List.finRange kMaxSRVCount).any (fun i => bindingHolds (bs.srv i) bufId)) ||
  ((List.finRange kMaxUAVCount).any (fun i => bindingHolds (bs.uav i) bufId))

/-- `DescriptorHeap::kMaxDescriptorCount`. -/
def kMaxDescriptorCount : Nat := 65536

/-- `DescriptorHeap::kStaticDescriptorCount`: the static reserved descriptors
(the three null views), so index 3 is the first dynamic slot. -/
def kStaticDescriptorCount : Nat := 3

/-- A descriptor heap's allocator state: the dynamic bump cursor
(`next_dynamic_descriptor_index_`, initialized to `kStaticDescriptorCount`). -/
structure DescriptorHeap where
  nextDynamicDescriptorIndex : Nat := kStaticDescriptorCount
deriving DecidableEq, Repr

/-- `DescriptorHeap::AllocateDynamic(uint32_t& out_index)`: returns the next
free dynamic index, or `kErrorTooManyObjects` once the fixed capacity is
reached.  `outIndexIn` is the value held by the caller's reference before the
call; like the C++ out-parameter it is left unchanged on failure. -/
def allocateDynamic (h : DescriptorHeap) (outIndexIn : Nat) : Result × Nat × DescriptorHeap :=
  if h.nextDynamicDescriptorIndex = kMaxDescriptorCount then
    (kErrorTooManyObjects, outIndexIn, h)
  else
    (kSuccess, h.nextDynamicDescriptorIndex, ⟨h.nextDynamicDescriptorIndex + 1⟩)

/-- `DescriptorHeap::ClearDynamic`: reset the cursor to the first dynamic
slot. -/
def clearDynamic (_h : DescriptorHeap) : DescriptorHeap :=
  ⟨kStaticDescriptorCount⟩

/-- The indexes of the static null descriptors (`DeviceImpl` members
`null_cbv_index_`, `null_srv_index_`, `null_uav_index_`). -/
def nullCbvIndex : Nat := 0
def nullSrvIndex : Nat := 1
def nullUavIndex : Nat := 2

/-- The mutable state of a `DeviceImpl` relevant to the claims, plus two
observation logs: `cmds` (the contents of the native command list) and
`ensureTrace` (the arguments of every `EnsureCommandListState` call). -/
structure DeviceState where
  selfId : Nat
  cmdListState : CmdListState
  submittedFenceValue : Nat
  fenceCompletedValue : Nat
  resourceUsage : ResourceUsageMap
  shaderUsage : List Nat
  svHeap : DescriptorHeap
  siHeap : DescriptorHeap
  bindings : BindingState
  userMapped : List Nat
  cmds : List GpuCmd
  ensureTrace : List (CmdListState × Nat)

/-- A freshly initialized device (`DeviceImpl` constructor plus `Init`): the
command list is created open, so the lifecycle starts in `kRecording`. -/
def initialDeviceState (selfId : Nat) : DeviceState :=
  { selfId := selfId, cmdListState := .kRecording,
    submittedFenceValue := 0, fenceCompletedValue := 0,
    resourceUsage := [], shaderUsage := [],
    svHeap := {}, siHeap := {},
    bindings := initialBindingState, userMapped := [],
    cmds := [], ensureTrace := [] }

/-- `DeviceImpl::ExecuteRecordedCommands` (`kRecording -> kExecuting`): close
and submit the list, then increment and signal the fence.  The native close /
submit / signal calls are modelled as succeeding. -/
def executeRecordedCommands (dev : DeviceState) : Result × DeviceState :=
  (kSuccess, { dev with
      submittedFenceValue := dev.submittedFenceValue + 1,
      cmdListState := .kExecuting })

/-- `DeviceImpl::WaitForCommandExecution` (`kExecuting -> kNone`): poll the
fence; if not yet reached, wait up to `timeoutMilliseconds` (modelled: an
infinite wait completes, a bounded wait on an unsignalled fence expires with
`kNotReady`).  On success the state becomes `kNone` and the resource-usage map
and shader-usage set are cleared. -/
def waitForCommandExecution (dev : DeviceState) (timeoutMilliseconds : Nat) :
    Result × DeviceState :=
  if dev.fenceCompletedValue < dev.submittedFenceValue then
    if timeoutMilliseconds = kTimeoutInfinite then
      (kSuccess, { dev with
          fenceCompletedValue := dev.submittedFenceValue,
          cmdListState := .kNone, resourceUsage := [], shaderUsage := [] })
    else
      (kNotReady, dev)
  else
    (kSuccess, { dev with
        cmdListState := .kNone, resourceUsage := [], shaderUsage := [] })

/-- `DeviceImpl::ResetCommandListForRecording` (`kNone -> kRecording`): reset
the cached descriptor indices and both heaps' dynamic cursors, then reset the
native allocator and command list (modelled as succeeding, emptying the
recorded commands). -/
def resetCommandListForRecording (dev : DeviceState) : Result × DeviceState :=
  (kSuccess, { dev with
      bindings := dev.bindings.resetDescriptors,
      siHeap := clearDynamic dev.siHeap,
      svHeap := clearDynamic dev.svHeap,
      cmds := [],
      cmdListState := .kRecording })

/-- `DeviceImpl::EnsureCommandListState`: drive the lifecycle toward
`desired`, performing at most the necessary sub-transitions.  Each
`JD3D12_RETURN_IF_FAILED` propagates only negative codes, so a positive
`kNotReady` from `WaitForCommandExecution` is swallowed and the function falls
through to its final `return kSuccess`.  The call is logged in
`ensureTrace`. -/
def ensureCommandListState (dev : DeviceState) (desired : CmdListState)
    (timeoutMilliseconds : Nat) : Result × DeviceState :=
  let dev := { dev with ensureTrace := dev.ensureTrace ++ [(desired, timeoutMilliseconds)] }
  if desired = dev.cmdListState then (kSuccess, dev)
  else
    let step1 := if dev.cmdListState = .kRecording then executeRecordedCommands dev
                 else (kSuccess, dev)
    if step1.1 < 0 then step1
    else
      let dev := step1.2
      if desired = dev.cmdListState then (kSuccess, dev)
      else
        let step2 := if dev.cmdListState = .kExecuting then
                       waitForCommandExecution dev timeoutMilliseconds
                     else (kSuccess, dev)
        if step2.1 < 0 then step2
        else
          let dev := step2.2
          if desired = dev.cmdListState then (kSuccess, dev)
          else
            let step3 := if dev.cmdListState = .kNone then resetCommandListForRecording dev
                         else (kSuccess, dev)
            if step3.1 < 0 then step3
            else (kSuccess, step3.2)

/-- `DeviceImpl::UseBuffer`: record the buffer's use in the current command
list and emit the barrier the hazard rules require.  Fails with
invalid-argument if the buffer is user-mapped.  On first touch the
flags/state are recorded with no barrier; on a repeated touch of a
Default-strategy buffer, a transition barrier is emitted when the state
changes and a UAV barrier when the unordered-access state repeats; finally the
recorded flags are or-ed with the new flags and the last state updated. -/
def useBuffer (dev : DeviceState) (buf : Buffer) (state : D3DState) : Result × DeviceState :=
  if dev.userMapped.contains buf.id then (kErrorInvalidArgument, dev)
  else
    let usageFlags := usageFlagsForState state
    match usageLookup dev.resourceUsage buf.id with
    | none =>
      (kSuccess, { dev with
          resourceUsage := dev.resourceUsage ++ [(buf.id, ⟨usageFlags, state⟩)] })
    | some u =>
      let dev :=
        if buf.strategy = .kDefault then
          if state ≠ u.lastState then
            { dev with cmds := dev.cmds ++ [.resourceBarrierTransition buf.id u.lastState state] }
          else if state = .unorderedAccess ∧ u.lastState = .unorderedAccess then
            { dev with cmds := dev.cmds ++ [.resourceBarrierUAV buf.id] }
          else dev
        else dev
      (kSuccess, { dev with
          resourceUsage := usageUpdate dev.resourceUsage buf.id
            (fun r => ⟨r.flags ||| usageFlags, state⟩) })

/-- `DeviceImpl::WaitForBufferUnused`: fails if the buffer is still bound in
any binding slot; otherwise, if the buffer has a recorded usage, flushes and
waits for the GPU. -/
def waitForBufferUnused (dev : DeviceState) (buf : Buffer) : Result × DeviceState :=
  if dev.bindings.isBufferBound buf.id then (kErrorInvalidArgument, dev)
  else if (usageLookup dev.resourceUsage buf.id).isSome then
    ensureCommandListState dev .kNone kTimeoutInfinite
  else (kSuccess, dev)

/-! CPU-side buffer access. -/

/-- `DeviceImpl::MapBuffer`: validate, then — if the tracker records a
conflicting outstanding GPU access (any read or write for a CPU write, a write
for a CPU read) — force `EnsureCommandListState(kNone, timeout)` with a zero
timeout under `kCommandFlagDontWait`; finally mark the buffer user-mapped.
Returns the result, the mapped byte offset (`out_data_ptr` relative to the
persistent mapping, `none` on failure), and the new state. -/
def mapBuffer (dev : DeviceState) (buf : Buffer) (byteRange : Range)
    (cpuUsageFlag : Nat) (commandFlags : Nat) : Result × Option Nat × DeviceState :=
  if ¬(buf.device = dev.selfId) then (kErrorInvalidArgument, none, dev)
  else if dev.userMapped.contains buf.id then (kErrorInvalidArgument, none, dev)
  else if ¬(buf.persistentlyMapped = true) then (kErrorInvalidArgument, none, dev)
  else if ¬(countBitsSet (cpuUsageFlag &&&
      (kBufferUsageFlagCpuSequentialWrite ||| kBufferUsageFlagCpuRead)) = 1) then
    (kErrorInvalidArgument, none, dev)
  else if ¬(buf.flags &&& cpuUsageFlag = cpuUsageFlag) then (kErrorInvalidArgument, none, dev)
  else
    let isWriting := buf.flags &&& kBufferUsageFlagCpuSequentialWrite ≠ 0
    let byteRange := limitRange byteRange buf.size
    if ¬(byteRange.count > 0) then (kErrorInvalidArgument, none, dev)
    else if ¬(addW byteRange.first byteRange.count ≤ buf.size) then
      (kErrorInvalidArgument, none, dev)
    else
      let conflictingUsageFlags :=
        if isWriting then kResourceUsageFlagWrite ||| kResourceUsageFlagRead
        else kResourceUsageFlagWrite
      let afterWait :=
        if isUsed dev.resourceUsage buf.id conflictingUsageFlags then
          let timeout := if commandFlags &&& kCommandFlagDontWait ≠ 0 then 0
                         else kTimeoutInfinite
          ensureCommandListState dev .kNone timeout
        else (kSuccess, dev)
      if ¬(afterWait.1 = kSuccess) then (afterWait.1, none, afterWait.2)
      else
        let dev := afterWait.2
        (kSuccess, some byteRange.first, { dev with userMapped := dev.userMapped ++ [buf.id] })

/-- `DeviceImpl::UnmapBuffer`: clear the user-mapped flag. -/
def unmapBuffer (dev : DeviceState) (buf : Buffer) : DeviceState :=
  { dev with userMapped := dev.userMapped.filter (fun i => i ≠ buf.id) }

/-- `DeviceImpl::ReadBufferToMemory`: validate, resolve a recorded GPU *write*
of the source by a flush-and-wait (honouring `kCommandFlagDontWait`), then map
for reading, copy out and unmap.  `dstIsNull` models a null `dst_memory`
pointer. -/
def readBufferToMemory (dev : DeviceState) (srcBuf : Buffer) (srcByteRange : Range)
    (dstIsNull : Bool) (commandFlags : Nat) : Result × DeviceState :=
  if ¬(srcBuf.device = dev.selfId) then (kErrorInvalidArgument, dev)
  else if dev.userMapped.contains srcBuf.id then (kErrorInvalidArgument, dev)
  else
    let srcByteRange := limitRange srcByteRange srcBuf.size
    if srcByteRange.count = 0 then (kFalse, dev)
    else if dstIsNull then (kErrorInvalidArgument, dev)
    else if ¬(srcByteRange.first < srcBuf.size ∧
        addW srcByteRange.first srcByteRange.count ≤ srcBuf.size) then
      (kErrorInvalidArgument, dev)
    else
      let afterWait :=
        if isUsed dev.resourceUsage srcBuf.id kResourceUsageFlagWrite then
          let timeout := if commandFlags &&& kCommandFlagDontWait ≠ 0 then 0
                         else kTimeoutInfinite
          ensureCommandListState dev .kNone timeout
        else (kSuccess, dev)
      if afterWait.1 = kNotReady then (kNotReady, afterWait.2)
      else if afterWait.1 < 0 then (afterWait.1, afterWait.2)
      else
        let dev := afterWait.2
        let m := mapBuffer dev srcBuf srcByteRange kBufferUsageFlagCpuRead 0
        if m.1 < 0 then (m.1, m.2.2)
        else (kSuccess, unmapBuffer m.2.2 srcBuf)

/-- Source payload of `WriteMemoryToBuffer` (`utils.hpp` `ConstDataSpan`);
`isNull` models a null `data` pointer, `size` the byte count. -/
structure ConstDataSpan where
  isNull : Bool
  size : Nat
deriving DecidableEq, Repr

/-- `DeviceImpl::WriteMemoryToBuffer`: validate, then either write through the
persistent mapping (Upload strategy, after resolving any recorded GPU use of
the destination by a flush-and-wait) or record a `WriteBufferImmediate`
command (Default strategy, limited to 64 KiB per call, after ensuring the
Recording state and passing the destination through `UseBuffer`). -/
def writeMemoryToBuffer (dev : DeviceState) (srcData : ConstDataSpan) (dstBuf : Buffer)
    (dstByteOffset : Nat) (commandFlags : Nat) : Result × DeviceState :=
  if ¬(dstBuf.device = dev.selfId) then (kErrorInvalidArgument, dev)
  else if dev.userMapped.contains dstBuf.id then (kErrorInvalidArgument, dev)
  else if srcData.size = 0 then (kFalse, dev)
  else if srcData.isNull then (kErrorInvalidArgument, dev)
  else if ¬(srcData.size % 4 = 0) then (kErrorInvalidArgument, dev)
  else if ¬(dstByteOffset < dstBuf.size ∧ addW dstByteOffset srcData.size ≤ dstBuf.size) then
    (kErrorInvalidArgument, dev)
  else if dstBuf.strategy = .kUpload then
    let afterWait :=
      if isUsed dev.resourceUsage dstBuf.id
          (kResourceUsageFlagWrite ||| kResourceUsageFlagRead) then
        let timeout := if commandFlags &&& kCommandFlagDontWait ≠ 0 then 0
                       else kTimeoutInfinite
        ensureCommandListState dev .kNone timeout
      else (kSuccess, dev)
    if ¬(afterWait.1 = kSuccess) then (afterWait.1, afterWait.2)
    else
      let m := mapBuffer afterWait.2 dstBuf ⟨dstByteOffset, srcData.size⟩
                 kBufferUsageFlagCpuSequentialWrite 0
      if m.1 < 0 then (m.1, m.2.2)
      else (kSuccess, unmapBuffer m.2.2 dstBuf)
  else if dstBuf.strategy = .kDefault then
    if ¬(srcData.size ≤ 0x10000) then (kErrorInvalidArgument, dev)
    else
      let timeout := if commandFlags &&& kCommandFlagDontWait ≠ 0 then 0
                     else kTimeoutInfinite
      let e := ensureCommandListState dev .kRecording timeout
      if ¬(e.1 = kSuccess) then (e.1, e.2)
      else
        let u := useBuffer e.2 dstBuf .copyDest
        if u.1 < 0 then u
        else (kSuccess, { u.2 with
            cmds := u.2.cmds ++ [.writeBufferImmediate dstBuf.id dstByteOffset srcData.size] })
  else (kErrorUnexpected, dev)

/-! Binding-cache operations. -/

/-- `D3D12_CONSTANT_BUFFER_DATA_PLACEMENT_ALIGNMENT`. -/
def kConstantBufferDataPlacementAlignment : Nat := 256

/-- The C++ pointer comparison `binding->buffer == buf`. -/
def sameBuffer (a b : Option Buffer) : Bool :=
  match a, b with
  | none, none => true
  | some x, some y => x.id == y.id
  | _, _ => false

/-- Store a binding into a CBV slot. -/
def setCbvSlot (dev : DeviceState) (slot : Fin kMaxCBVCount) (b : Binding) : DeviceState :=
  { dev with bindings := { dev.bindings with
      cbv := fun i => if i = slot then b else dev.bindings.cbv i } }

/-- Store a binding into an SRV slot. -/
def setSrvSlot (dev : DeviceState) (slot : Fin kMaxSRVCount) (b : Binding) : DeviceState :=
  { dev with bindings := { dev.bindings with
      srv := fun i => if i = slot then b else dev.bindings.srv i } }

/-- Store a binding into a UAV slot. -/
def setUavSlot (dev : DeviceState) (slot : Fin kMaxUAVCount) (b : Binding) : DeviceState :=
  { dev with bindings := { dev.bindings with
      uav := fun i => if i = slot then b else dev.bindings.uav i } }

/-- `DeviceImpl::BindConstantBuffer` (`b` register slot). -/
def bindConstantBuffer (dev : DeviceState) (bSlot : Nat) (buf : Option Buffer)
    (byteRange : Range) : Result × DeviceState :=
  if h : bSlot < kMaxCBVCount then
    let byteRange :=
      match buf with
      | some b => limitRange byteRange b.size
      | none => kEmptyRange
    if ¬(byteRange.first % kConstantBufferDataPlacementAlignment = 0 ∧
        byteRange.count % kConstantBufferDataPlacementAlignment = 0) then
      (kErrorInvalidArgument, dev)
    else
      let slot : Fin kMaxCBVCount := ⟨bSlot, h⟩
      let binding := dev.bindings.cbv slot
      if sameBuffer binding.buffer buf && binding.byteRange == byteRange then (kFalse, dev)
      else
        match buf with
        | none => (kSuccess, setCbvSlot dev slot defaultBinding)
        | some b =>
          let alignment := if bufElementSize b = 0 then 4 else bufElementSize b
          if ¬(byteRange.first % alignment = 0) then (kErrorInvalidArgument, dev)
          else if ¬(byteRange.count > 0 ∧ byteRange.count % alignment = 0) then
            (kErrorInvalidArgument, dev)
          else if ¬(b.device = dev.selfId) then (kErrorInvalidArgument, dev)
          else if ¬(b.flags &&& kBufferUsageFlagShaderConstant ≠ 0) then
            (kErrorInvalidArgument, dev)
          else if ¬(byteRange.first < b.size) then (kErrorInvalidArgument, dev)
          else if ¬(addW byteRange.first byteRange.count ≤ b.size) then
            (kErrorInvalidArgument, dev)
          else (kSuccess, setCbvSlot dev slot ⟨some b, byteRange, uint32Max⟩)
  else (kErrorInvalidArgument, dev)

/-- `DeviceImpl::BindBuffer` (`t` register slot, read-only shader resource). -/
def bindBuffer (dev : DeviceState) (tSlot : Nat) (buf : Option Buffer)
    (byteRange : Range) : Result × DeviceState :=
  if h : tSlot < kMaxSRVCount then
    let byteRange :=
      match buf with
      | some b => limitRange byteRange b.size
      | none => kEmptyRange
    let slot : Fin kMaxSRVCount := ⟨tSlot, h⟩
    let binding := dev.bindings.srv slot
    if sameBuffer binding.buffer buf && binding.byteRange == byteRange then (kFalse, dev)
    else
      match buf with
      | none => (kSuccess, setSrvSlot dev slot defaultBinding)
      | some b =>
        if ¬(countBitsSet (b.flags &&&
            (kBufferFlagTyped ||| kBufferFlagStructured ||| kBufferFlagByteAddress)) = 1) then
          (kErrorInvalidArgument, dev)
        else
          let alignment := if bufElementSize b = 0 then 4 else bufElementSize b
          if ¬(byteRange.first % alignment = 0) then (kErrorInvalidArgument, dev)
          else if ¬(byteRange.count > 0 ∧ byteRange.count % alignment = 0) then
            (kErrorInvalidArgument, dev)
          else if ¬(b.device = dev.selfId) then (kErrorInvalidArgument, dev)
          else if ¬(b.flags &&& kBufferUsageFlagShaderResource ≠ 0) then
            (kErrorInvalidArgument, dev)
          else if ¬(byteRange.first < b.size) then (kErrorInvalidArgument, dev)
          else if ¬(addW byteRange.first byteRange.count ≤ b.size) then
            (kErrorInvalidArgument, dev)
          else (kSuccess, setSrvSlot dev slot ⟨some b, byteRange, uint32Max⟩)
  else (kErrorInvalidArgument, dev)

/-- `DeviceImpl::BindRWBuffer` (`u` register slot, read-write shader
resource). -/
def bindRWBuffer (dev : DeviceState) (uSlot : Nat) (buf : Option Buffer)
    (byteRange : Range) : Result × DeviceState :=
  if h : uSlot < kMaxUAVCount then
    let byteRange :=
      match buf with
      | some b => limitRange byteRange b.size
      | none => kEmptyRange
    let slot : Fin kMaxUAVCount := ⟨uSlot, h⟩
    let binding := dev.bindings.uav slot
    if sameBuffer binding.buffer buf && binding.byteRange == byteRange then (kFalse, dev)
    else
      match buf with
      | none => (kSuccess, setUavSlot dev slot defaultBinding)
      | some b =>
        if ¬(countBitsSet (b.flags &&&
            (kBufferFlagTyped ||| kBufferFlagStructured ||| kBufferFlagByteAddress)) = 1) then
          (kErrorInvalidArgument, dev)
        else
          let alignment := if bufElementSize b = 0 then 4 else bufElementSize b
          if ¬(byteRange.first % alignment = 0) then (kErrorInvalidArgument, dev)
          else if ¬(byteRange.count > 0 ∧ byteRange.count % alignment = 0) then
            (kErrorInvalidArgument, dev)
          else if ¬(b.device = dev.selfId) then (kErrorInvalidArgument, dev)
          else if ¬(b.flags &&& kBufferUsageFlagShaderRWResource ≠ 0) then
            (kErrorInvalidArgument, dev)
          else if ¬(byteRange.first < b.size) then (kErrorInvalidArgument, dev)
          else if ¬(addW byteRange.first byteRange.count ≤ b.size) then
            (kErrorInvalidArgument, dev)
          else (kSuccess, setUavSlot dev slot ⟨some b, byteRange, uint32Max⟩)
  else (kErrorInvalidArgument, dev)

/-! Dispatch-time descriptor materialization. -/

/-- One iteration of the CBV loop of `DeviceImpl::UpdateRootArguments`: point
an empty slot at the static null view; otherwise pass the buffer through
`UseBuffer` in the constant-buffer state, lazily allocate a dynamic descriptor
when the cached index is unset (the `CreateConstantBufferView` call is
device-side and records no command), and set the root descriptor table. -/
def processCbvSlot (dev : DeviceState) (slot : Fin kMaxCBVCount) : Result × DeviceState :=
  let binding := dev.bindings.cbv slot
  let rootIdx := rootParamIndexForCBV slot.val
  match binding.buffer with
  | none =>
    (kSuccess, { dev with
        cmds := dev.cmds ++ [.setComputeRootDescriptorTable rootIdx nullCbvIndex] })
  | some b =>
    let u := useBuffer dev b .vertexAndConstantBuffer
    if u.1 < 0 then u
    else
      let dev := u.2
      if binding.descriptorIndex = uint32Max then
        let a := allocateDynamic dev.svHeap binding.descriptorIndex
        if a.1 < 0 then (a.1, { dev with svHeap := a.2.2 })
        else
          let idx := a.2.1
          let dev := setCbvSlot { dev with svHeap := a.2.2 } slot
            { binding with descriptorIndex := idx }
          (kSuccess, { dev with
              cmds := dev.cmds ++ [.setComputeRootDescriptorTable rootIdx idx] })
      else
        (kSuccess, { dev with
            cmds := dev.cmds ++ [.setComputeRootDescriptorTable rootIdx binding.descriptorIndex] })

/-- One iteration of the SRV loop of `UpdateRootArguments` (state
`NON_PIXEL_SHADER_RESOURCE`; the typed / structured / byte-address view
description is computed for `CreateShaderResourceView`, a device-side call
recording no command). -/
def processSrvSlot (dev : DeviceState) (slot : Fin kMaxSRVCount) : Result × DeviceState :=
  let binding := dev.bindings.srv slot
  let rootIdx := rootParamIndexForSRV slot.val
  match binding.buffer with
  | none =>
    (kSuccess, { dev with
        cmds := dev.cmds ++ [.setComputeRootDescriptorTable rootIdx nullSrvIndex] })
  | some b =>
    let u := useBuffer dev b .nonPixelShaderResource
    if u.1 < 0 then u
    else
      let dev := u.2
      if binding.descriptorIndex = uint32Max then
        let a := allocateDynamic dev.svHeap binding.descriptorIndex
        if a.1 < 0 then (a.1, { dev with svHeap := a.2.2 })
        else
          let idx := a.2.1
          let dev := setSrvSlot { dev with svHeap := a.2.2 } slot
            { binding with descriptorIndex := idx }
          (kSuccess, { dev with
              cmds := dev.cmds ++ [.setComputeRootDescriptorTable rootIdx idx] })
      else
        (kSuccess, { dev with
            cmds := dev.cmds ++ [.setComputeRootDescriptorTable rootIdx binding.descriptorIndex] })

/-- One iteration of the UAV loop of `UpdateRootArguments` (state
`UNORDERED_ACCESS`; the view description is computed for
`CreateUnorderedAccessView`, a device-side call recording no command). -/
def processUavSlot (dev : DeviceState) (slot : Fin kMaxUAVCount) : Result × DeviceState :=
  let binding := dev.bindings.uav slot
  let rootIdx := rootParamIndexForUAV slot.val
  match binding.buffer with
  | none =>
    (kSuccess, { dev with
        cmds := dev.cmds ++ [.setComputeRootDescriptorTable rootIdx nullUavIndex] })
  | some b =>
    let u := useBuffer dev b .unorderedAccess
    if u.1 < 0 then u
    else
      let dev := u.2
      if binding.descriptorIndex = uint32Max then
        let a := allocateDynamic dev.svHeap binding.descriptorIndex
        if a.1 < 0 then (a.1, { dev with svHeap := a.2.2 })
        else
          let idx := a.2.1
          let dev := setUavSlot { dev with svHeap := a.2.2 } slot
            { binding with descriptorIndex := idx }
          (kSuccess, { dev with
              cmds := dev.cmds ++ [.setComputeRootDescriptorTable rootIdx idx] })
      else
        (kSuccess, { dev with
            cmds := dev.cmds ++ [.setComputeRootDescriptorTable rootIdx binding.descriptorIndex] })

/-- The CBV loop, aborting on the first failed slot
(`JD3D12_RETURN_IF_FAILED` inside the loop body). -/
def runCbvSlots : List (Fin kMaxCBVCount) → DeviceState → Result × DeviceState
  | [], dev => (kSuccess, dev)
  | s :: rest, dev =>
    let r := processCbvSlot dev s
    if r.1 < 0 then r else runCbvSlots rest r.2

/-- The SRV loop. -/
def runSrvSlots : List (Fin kMaxSRVCount) → DeviceState → Result × DeviceState
  | [], dev => (kSuccess, dev)
  | s :: rest, dev =>
    let r := processSrvSlot dev s
    if r.1 < 0 then r else runSrvSlots rest r.2

/-- The UAV loop. -/
def runUavSlots : List (Fin kMaxUAVCount) → DeviceState → Result × DeviceState
  | [], dev => (kSuccess, dev)
  | s :: rest, dev =>
    let r := processUavSlot dev s
    if r.1 < 0 then r else runUavSlots rest r.2

/-- `DeviceImpl::UpdateRootArguments`: materialize the descriptor table
arguments for all CBV, then SRV, then UAV slots. -/
def updateRootArguments (dev : DeviceState) : Result × DeviceState :=
  let r1 := runCbvSlots (List.finRange kMaxCBVCount) dev
  if r1.1 < 0 then r1
  else
    let r2 := runSrvSlots (List.finRange kMaxSRVCount) r1.2
    if r2.1 < 0 then r2
    else
      let r3 := runUavSlots (List.finRange kMaxUAVCount) r2.2
      if r3.1 < 0 then r3
      else (kSuccess, r3.2)

/-- A vector of three unsigned group counts (`types.hpp` `UintVec3`). -/
structure UintVec3 where
  x : Nat
  y : Nat
  z : Nat
deriving DecidableEq, Repr

/-- A compiled compute shader (`core.cpp` `class ShaderImpl`): identity,
owning device and reflected thread-group size. -/
structure Shader where
  id : Nat
  device : Nat
  threadGroupSize : UintVec3
deriving DecidableEq, Repr

/-- `UINT16_MAX`, the dispatch group-count limit per dimension. -/
def uint16Max : Nat := 65535

/-- `DeviceImpl::DispatchComputeShader`: no-op on a zero group count, invalid
argument above 65535 per dimension, otherwise ensure the Recording state, set
heaps / pipeline / root signature, materialize root arguments and record the
dispatch. -/
def dispatchComputeShader (dev : DeviceState) (shader : Shader) (groupCount : UintVec3) :
    Result × DeviceState :=
  if ¬(shader.device = dev.selfId) then (kErrorInvalidArgument, dev)
  else if groupCount.x = 0 ∨ groupCount.y = 0 ∨ groupCount.z = 0 then (kFalse, dev)
  else if ¬(groupCount.x ≤ uint16Max ∧ groupCount.y ≤ uint16Max ∧ groupCount.z ≤ uint16Max) then
    (kErrorInvalidArgument, dev)
  else
    let e := ensureCommandListState dev .kRecording kTimeoutInfinite
    if e.1 < 0 then e
    else
      let dev := { e.2 with cmds := e.2.cmds ++
        [.setDescriptorHeaps, .setPipelineState shader.id, .setComputeRootSignature] }
      let u := updateRootArguments dev
      if u.1 < 0 then u
      else (kSuccess, { u.2 with
          cmds := u.2.cmds ++ [.dispatch groupCount.x groupCount.y groupCount.z] })

/-! Concrete instances used by the counterexample and witness theorems. -/

/-- A Default-strategy buffer used to instantiate the `UseBuffer` claims. -/
def c1buf : Buffer :=
  ⟨7, 0, kBufferUsageFlagCopyDst, 16, 0, 0, .kDefault, false⟩

/-- A recording device on which `c1buf` is currently user-mapped. -/
def c1state : DeviceState := { initialDeviceState 0 with userMapped := [7] }

/-- A recording device on which `c1buf` has already been read (copy-source)
in the current command list. -/
def c1touchedState : DeviceState :=
  { initialDeviceState 0 with
      resourceUsage := [(7, ⟨kResourceUsageFlagRead, .copySource⟩)] }

/-- An Upload-strategy buffer (persistently mapped). -/
def c2buf : Buffer :=
  ⟨3, 0, kBufferUsageFlagCpuSequentialWrite, 16, 0, 0, .kUpload, true⟩

/-- A recording device on which `c2buf` has a recorded GPU read in the current
command list and the fence has not yet been signalled. -/
def c2state : DeviceState :=
  { initialDeviceState 0 with
      resourceUsage := [(3, ⟨kResourceUsageFlagRead, .copySource⟩)] }

/-- A binding cache with one cached (already materialized) descriptor index. -/
def c3bindings : BindingState :=
  { initialBindingState with
      cbv := fun i => if i.val = 0 then ⟨none, kFullRange, 5⟩ else defaultBinding }

/-- An executing device whose fence has completed, with advanced heap cursors,
a cached descriptor index, and non-empty usage sets. -/
def c3state : DeviceState :=
  { selfId := 0, cmdListState := .kExecuting,
    submittedFenceValue := 1, fenceCompletedValue := 1,
    resourceUsage := [(5, ⟨kResourceUsageFlagRead ||| kResourceUsageFlagWrite, .unorderedAccess⟩)],
    shaderUsage := [4],
    svHeap := ⟨7⟩, siHeap := ⟨6⟩,
    bindings := c3bindings, userMapped := [],
    cmds := [], ensureTrace := [] }

/-- A buffer description accepted by `InitParameters` (CPU sequential write
and copy source), deriving the Upload strategy. -/
def c4okDesc : BufferDesc :=
  ⟨kBufferUsageFlagCpuSequentialWrite ||| kBufferUsageFlagCopySrc, 16, 0, 0⟩

/-- A buffer description with two CPU-access flags, rejected by
`InitParameters`. -/
def c4badDesc : BufferDesc :=
  ⟨kBufferUsageFlagCpuRead ||| kBufferUsageFlagCpuSequentialWrite ||| kBufferUsageFlagCopySrc,
   16, 0, 0⟩

/-- A constant-bindable buffer for the rebind witness. -/
def c5cbvBuf : Buffer := ⟨20, 0, kBufferUsageFlagShaderConstant, 256, 0, 0, .kDefault, false⟩

/-- A read-bindable typed buffer for the rebind witness. -/
def c5srvBuf : Buffer :=
  ⟨21, 0, kBufferUsageFlagShaderResource ||| kBufferFlagTyped, 16, 42, 0, .kDefault, false⟩

/-- A read-write-bindable typed buffer for the rebind witness. -/
def c5uavBuf : Buffer :=
  ⟨22, 0, kBufferUsageFlagShaderRWResource ||| kBufferFlagTyped, 16, 42, 0, .kDefault, false⟩

/-- A shader owned by device 0 for the dispatch claims. -/
def c6shader : Shader := ⟨1, 0, ⟨8, 8, 1⟩⟩

/-- Description of a 68 KiB Upload-strategy buffer. -/
def c7desc : BufferDesc := ⟨kBufferUsageFlagCpuSequentialWrite, 69632, 0, 0⟩

/-- The buffer created from `c7desc`. -/
def c7buf : Buffer :=
  ⟨1, 0, kBufferUsageFlagCpuSequentialWrite, 69632, 0, 0, .kUpload, true⟩

/-- A Default-strategy destination buffer for the payload-limit witness. -/
def c7defBuf : Buffer :=
  ⟨2, 0, kBufferUsageFlagCopyDst, 131072, 0, 0, .kDefault, false⟩

/-- Description of a read-write typed buffer (element format 42 is
`kR32_Uint`). -/
def c8desc : BufferDesc :=
  ⟨kBufferUsageFlagShaderRWResource ||| kBufferFlagTyped, 16, 42, 0⟩

/-- The buffer created from `c8desc`. -/
def c8buf : Buffer :=
  ⟨10, 0, kBufferUsageFlagShaderRWResource ||| kBufferFlagTyped, 16, 42, 0, .kDefault, false⟩

/-- The device state after binding `c8buf` into read-write slot 0. -/
def c8dev : DeviceState := (bindRWBuffer (initialDeviceState 0) 0 (some c8buf) kFullRange).2

/-! Shared helper lemmas. -/

/-- Two distinct low bits force at least two set bits in the low-3-bit mask. -/
lemma countBitsSet_two_low_bits (flags : Nat)
    (h1 : flags &&& 1 ≠ 0) (h2 : flags &&& 2 ≠ 0) :
    2 ≤ countBitsSet (flags &&& 7) := by
  have e71 : (7 : Nat) &&& 1 = 1 := by decide
  have e72 : (7 : Nat) &&& 2 = 2 := by decide
  have e1 : flags &&& 7 &&& 1 = flags &&& 1 := by rw [Nat.land_assoc, e71]
  have e2 : flags &&& 7 &&& 2 = flags &&& 2 := by rw [Nat.land_assoc, e72]
  have hle : flags &&& 7 ≤ 7 := Nat.and_le_right
  set m := flags &&& 7 with hm
  rw [← e1] at h1
  rw [← e2] at h2
  interval_cases m <;> revert h1 h2 <;> decide

/-- The placement-strategy priority order stated by the specification:
GPU-read-write-resource first, then CPU-sequential-write, then CPU-read,
otherwise Default. -/
def priorityStrategy (desc : BufferDesc) : BufferStrategy :=
  if desc.flags &&& kBufferUsageFlagShaderRWResource ≠ 0 then .kDefault
  else if desc.flags &&& kBufferUsageFlagCpuSequentialWrite ≠ 0 then .kUpload
  else if desc.flags &&& kBufferUsageFlagCpuRead ≠ 0 then .kReadback
  else .kDefault

/-- The conjunction of every check performed by `InitParameters`, including
the checks inside the strategy branches, stated positively. -/
def bufferChecksOk (desc : BufferDesc) (initialDataSize : Nat) : Prop :=
  desc.flags &&& (kBufferUsageMaskCpu ||| kBufferUsageMaskCopy ||| kBufferUsageMaskShader) ≠ 0
  ∧ countBitsSet (desc.flags &&& kBufferUsageMaskCpu) ≤ 1
  ∧ countBitsSet (desc.flags &&& (kBufferFlagTyped ||| kBufferFlagStructured ||| kBufferFlagByteAddress)) ≤ 1
  ∧ (desc.size > 0 ∧ desc.size % 4 = 0)
  ∧ initialDataSize ≤ desc.size
  ∧ (initialDataSize > 0 → desc.flags &&& kBufferUsageFlagCpuSequentialWrite ≠ 0)
  ∧ ((desc.flags &&& kBufferFlagTyped ≠ 0) ↔ desc.elementFormat ≠ 0)
  ∧ (desc.flags &&& kBufferFlagTyped ≠ 0 → validTypedFormat desc.elementFormat = true)
  ∧ ((desc.flags &&& kBufferFlagStructured ≠ 0) ↔ desc.structureSize > 0)
  ∧ (desc.flags &&& kBufferFlagStructured ≠ 0 → desc.structureSize % 4 = 0)
  ∧ (getElementSize desc > 0 → desc.size % getElementSize desc = 0)
  ∧ (desc.flags &&& kBufferUsageFlagShaderRWResource ≠ 0 →
       desc.flags &&& kBufferUsageFlagCpuRead = 0)
  ∧ (desc.flags &&& kBufferUsageFlagShaderRWResource = 0 →
     desc.flags &&& kBufferUsageFlagCpuSequentialWrite ≠ 0 →
       desc.flags &&& kBufferUsageFlagCopyDst = 0)
  ∧ (desc.flags &&& kBufferUsageFlagShaderRWResource = 0 →
     desc.flags &&& kBufferUsageFlagCpuSequentialWrite = 0 →
     desc.flags &&& kBufferUsageFlagCpuRead ≠ 0 →
       desc.flags &&& kBufferUsageFlagCopySrc = 0 ∧ desc.flags &&& kBufferUsageMaskShader = 0)

/-- Characterization of `InitParameters`: it returns only success or
invalid-argument, and on success the strategy is the priority-order one and
every check holds. -/
lemma initParameters_main (desc : BufferDesc) (initialDataSize : Nat) :
    ((initParameters desc initialDataSize).1 = kSuccess
      ∨ (initParameters desc initialDataSize).1 = kErrorInvalidArgument)
    ∧ ((initParameters desc initialDataSize).1 = kSuccess →
        (initParameters desc initialDataSize).2 = priorityStrategy desc
        ∧ bufferChecksOk desc initialDataSize) := by
  have hne : kErrorInvalidArgument = kSuccess → False := by decide
  unfold initParameters
  by_cases h1 : ¬(desc.flags &&& (kBufferUsageMaskCpu ||| kBufferUsageMaskCopy ||| kBufferUsageMaskShader) ≠ 0)
  · rw [if_pos h1]; exact ⟨Or.inr rfl, fun h => (hne h).elim⟩
  rw [if_neg h1]
  by_cases h2 : ¬(countBitsSet (desc.flags &&& kBufferUsageMaskCpu) ≤ 1)
  · rw [if_pos h2]; exact ⟨Or.inr rfl, fun h => (hne h).elim⟩
  rw [if_neg h2]
  by_cases h3 : ¬(countBitsSet (desc.flags &&& (kBufferFlagTyped ||| kBufferFlagStructured ||| kBufferFlagByteAddress)) ≤ 1)
  · rw [if_pos h3]; exact ⟨Or.inr rfl, fun h => (hne h).elim⟩
  rw [if_neg h3]
  by_cases h4 : ¬(desc.size > 0 ∧ desc.size % 4 = 0)
  · rw [if_pos h4]; exact ⟨Or.inr rfl, fun h => (hne h).elim⟩
  rw [if_neg h4]
  by_cases h5 : ¬(initialDataSize ≤ desc.size)
  · rw [if_pos h5]; exact ⟨Or.inr rfl, fun h => (hne h).elim⟩
  rw [if_neg h5]
  by_cases h6 : ¬(initialDataSize > 0 → desc.flags &&& kBufferUsageFlagCpuSequentialWrite ≠ 0)
  · rw [if_pos h6]; exact ⟨Or.inr rfl, fun h => (hne h).elim⟩
  rw [if_neg h6]
  by_cases h7 : ¬((desc.flags &&& kBufferFlagTyped ≠ 0) ↔ desc.elementFormat ≠ 0)
  · rw [if_pos h7]; exact ⟨Or.inr rfl, fun h => (hne h).elim⟩
  rw [if_neg h7]
  by_cases h8 : ¬(desc.flags &&& kBufferFlagTyped ≠ 0 → validTypedFormat desc.elementFormat = true)
  · rw [if_pos h8]; exact ⟨Or.inr rfl, fun h => (hne h).elim⟩
  rw [if_neg h8]
  by_cases h9 : ¬((desc.flags &&& kBufferFlagStructured ≠ 0) ↔ desc.structureSize > 0)
  · rw [if_pos h9]; exact ⟨Or.inr rfl, fun h => (hne h).elim⟩
  rw [if_neg h9]
  by_cases h10 : ¬(desc.flags &&& kBufferFlagStructured ≠ 0 → desc.structureSize % 4 = 0)
  · rw [if_pos h10]; exact ⟨Or.inr rfl, fun h => (hne h).elim⟩
  rw [if_neg h10]
  by_cases h11 : ¬(getElementSize desc > 0 → desc.size % getElementSize desc = 0)
  · rw [if_pos h11]; exact ⟨Or.inr rfl, fun h => (hne h).elim⟩
  rw [if_neg h11]
  push_neg at h1 h2 h3 h4 h5 h6 h7 h8 h9 h10 h11
  by_cases h12 : desc.flags &&& kBufferUsageFlagShaderRWResource ≠ 0
  · rw [if_pos h12]
    by_cases h12b : ¬(desc.flags &&& kBufferUsageFlagCpuRead = 0)
    · rw [if_pos h12b]; exact ⟨Or.inr rfl, fun h => (hne h).elim⟩
    rw [if_neg h12b]
    push_neg at h12b
    refine ⟨Or.inl rfl, fun _ => ⟨?_, ?_⟩⟩
    · simp only [priorityStrategy, if_pos h12]
    · unfold bufferChecksOk
      refine ⟨h1, h2, h3, h4, h5, ?_, h7, h8, h9, h10, h11, fun _ => h12b,
        fun hc _ => absurd hc h12, fun hc _ _ => absurd hc h12⟩
      intro hid
      exact fun hz => h6 hid hz
  rw [if_neg h12]
  push_neg at h12
  by_cases h13 : desc.flags &&& kBufferUsageFlagCpuSequentialWrite ≠ 0
  · rw [if_pos h13]
    by_cases h13b : ¬(desc.flags &&& kBufferUsageFlagCopyDst = 0)
    · rw [if_pos h13b]; exact ⟨Or.inr rfl, fun h => (hne h).elim⟩
    rw [if_neg h13b]
    push_neg at h13b
    refine ⟨Or.inl rfl, fun _ => ⟨?_, ?_⟩⟩
    · simp only [priorityStrategy]
      rw [if_neg (by simp [h12]), if_pos h13]
    · unfold bufferChecksOk
      refine ⟨h1, h2, h3, h4, h5, ?_, h7, h8, h9, h10, h11,
        fun hc => absurd h12 (by simp [hc]), fun _ _ => h13b,
        fun _ hc => absurd hc (by simp [h13])⟩
      intro hid
      exact fun hz => h6 hid hz
  rw [if_neg h13]
  push_neg at h13
  by_cases h14 : desc.flags &&& kBufferUsageFlagCpuRead ≠ 0
  · rw [if_pos h14]
    by_cases h14b : ¬(desc.flags &&& kBufferUsageFlagCopySrc = 0)
    · rw [if_pos h14b]; exact ⟨Or.inr rfl, fun h => (hne h).elim⟩
    rw [if_neg h14b]
    push_neg at h14b
    by_cases h14c : ¬(desc.flags &&& kBufferUsageMaskShader = 0)
    · rw [if_pos h14c]; exact ⟨Or.inr rfl, fun h => (hne h).elim⟩
    rw [if_neg h14c]
    push_neg at h14c
    refine ⟨Or.inl rfl, fun _ => ⟨?_, ?_⟩⟩
    · simp only [priorityStrategy]
      rw [if_neg (by simp [h12]), if_neg (by simp [h13]), if_pos h14]
    · unfold bufferChecksOk
      refine ⟨h1, h2, h3, h4, h5, ?_, h7, h8, h9, h10, h11,
        fun hc => absurd h12 (by simp [hc]), fun _ hc => absurd hc (by simp [h13]),
        fun _ _ _ => ⟨h14b, h14c⟩⟩
      intro hid
      exact fun hz => h6 hid hz
  rw [if_neg h14]
  push_neg at h14
  refine ⟨Or.inl rfl, fun _ => ⟨?_, ?_⟩⟩
  · simp only [priorityStrategy]
    rw [if_neg (by simp [h12]), if_neg (by simp [h13]), if_neg (by simp [h14])]
  · unfold bufferChecksOk
    refine ⟨h1, h2, h3, h4, h5, ?_, h7, h8, h9, h10, h11,
      fun hc => absurd h12 (by simp [hc]), fun _ hc => absurd hc (by simp [h13]),
      fun _ _ hc => absurd hc (by simp [h14])⟩
    intro hid
    exact fun hz => h6 hid hz

set_option maxHeartbeats 3000000 in
/-- All exit paths of `BindConstantBuffer` either succeed or leave the device
state untouched. -/
lemma bindConstantBuffer_cases (dev : DeviceState) (slot : Nat) (buf : Option Buffer)
    (r : Range) :
    (bindConstantBuffer dev slot buf r).1 = kSuccess
    ∨ (bindConstantBuffer dev slot buf r).2 = dev := by
  unfold bindConstantBuffer
  repeat' ((try dsimp only); split)
  all_goals first | exact Or.inl rfl | exact Or.inr rfl

set_option maxHeartbeats 3000000 in
/-- All exit paths of `BindBuffer` either succeed or leave the device state
untouched. -/
lemma bindBuffer_cases (dev : DeviceState) (slot : Nat) (buf : Option Buffer) (r : Range) :
    (bindBuffer dev slot buf r).1 = kSuccess
    ∨ (bindBuffer dev slot buf r).2 = dev := by
  unfold bindBuffer
  repeat' ((try dsimp only); split)
  all_goals first | exact Or.inl rfl | exact Or.inr rfl

set_option maxHeartbeats 3000000 in
/-- All exit paths of `BindRWBuffer` either succeed or leave the device state
untouched. -/
lemma bindRWBuffer_cases (dev : DeviceState) (slot : Nat) (buf : Option Buffer) (r : Range) :
    (bindRWBuffer dev slot buf r).1 = kSuccess
    ∨ (bindRWBuffer dev slot buf r).2 = dev := by
  unfold bindRWBuffer
  repeat' ((try dsimp only); split)
  all_goals first | exact Or.inl rfl | exact Or.inr rfl

/-- C9: on a descriptor heap whose cursor is within the fixed capacity of
65536, `AllocateDynamic` returns the current dynamic cursor and advances it by
one when the cursor is below capacity; it fails with the too-many-objects
error, leaving the cursor (and the caller's index variable) unchanged, exactly
when the cursor has reached the capacity; `ClearDynamic` resets the cursor to
the first dynamic slot, index 3, just past the static reserved descriptors;
and two successive successful allocations return strictly increasing
indices. -/
theorem c9_allocate_dynamic_and_clear (h : DescriptorHeap) (outIndexIn : Nat)
    (hcap : h.nextDynamicDescriptorIndex ≤ kMaxDescriptorCount) :
    (h.nextDynamicDescriptorIndex < kMaxDescriptorCount →
      allocateDynamic h outIndexIn =
        (kSuccess, h.nextDynamicDescriptorIndex, ⟨h.nextDynamicDescriptorIndex + 1⟩))
    ∧ ((allocateDynamic h outIndexIn).1 = kErrorTooManyObjects ↔
        h.nextDynamicDescriptorIndex = kMaxDescriptorCount)
    ∧ (h.nextDynamicDescriptorIndex = kMaxDescriptorCount →
        allocateDynamic h outIndexIn = (kErrorTooManyObjects, outIndexIn, h))
    ∧ clearDynamic h = ⟨kStaticDescriptorCount⟩
    ∧ kStaticDescriptorCount = 3
    ∧ (∀ (i₁ : Nat) (h₁ : DescriptorHeap) (i₂ : Nat) (h₂ : DescriptorHeap),
        allocateDynamic h outIndexIn = (kSuccess, i₁, h₁) →
        allocateDynamic h₁ outIndexIn = (kSuccess, i₂, h₂) → i₁ < i₂) := by
  refine ⟨?_, ?_, ?_, rfl, rfl, ?_⟩
  · intro hlt
    unfold allocateDynamic
    rw [if_neg (by omega)]
  · unfold allocateDynamic
    by_cases hc : h.nextDynamicDescriptorIndex = kMaxDescriptorCount
    · rw [if_pos hc]; exact ⟨fun _ => hc, fun _ => rfl⟩
    · rw [if_neg hc]
      refine ⟨fun he => ?_, fun hceq => absurd hceq hc⟩
      exact absurd (show kSuccess = kErrorTooManyObjects from he) (by decide)
  · intro hc
    unfold allocateDynamic
    rw [if_pos hc]
  · intro i₁ h₁ i₂ h₂ e₁ e₂
    unfold allocateDynamic at e₁ e₂
    by_cases hc : h.nextDynamicDescriptorIndex = kMaxDescriptorCount
    · rw [if_pos hc] at e₁
      exact absurd (show kErrorTooManyObjects = kSuccess from congrArg Prod.fst e₁)
        (by decide)
    · rw [if_neg hc] at e₁
      simp only [Prod.mk.injEq] at e₁
      obtain ⟨-, hi, hh⟩ := e₁
      subst hi
      subst hh
      by_cases hc2 : (⟨h.nextDynamicDescriptorIndex + 1⟩ :
          DescriptorHeap).nextDynamicDescriptorIndex = kMaxDescriptorCount
      · rw [if_pos hc2] at e₂
        exact absurd (show kErrorTooManyObjects = kSuccess from congrArg Prod.fst e₂)
          (by decide)
      · rw [if_neg hc2] at e₂
        simp only [Prod.mk.injEq] at e₂
        obtain ⟨-, hi2, -⟩ := e₂
        omega

/-- Witness for C9 at concrete heaps: a fresh heap allocates index 3 and
advances to 4; a full heap fails leaving the caller's variable untouched; a
used heap is cleared back to cursor 3. -/
theorem c9_witness :
    allocateDynamic ⟨3⟩ uint32Max = (kSuccess, 3, ⟨4⟩)
    ∧ allocateDynamic ⟨kMaxDescriptorCount⟩ uint32Max =
        (kErrorTooManyObjects, uint32Max, ⟨kMaxDescriptorCount⟩)
    ∧ clearDynamic ⟨4⟩ = ⟨kStaticDescriptorCount⟩ :=
  ⟨(c9_allocate_dynamic_and_clear ⟨3⟩ uint32Max (by decide)).1 (by decide),
   (c9_allocate_dynamic_and_clear ⟨kMaxDescriptorCount⟩ uint32Max (by decide)).2.2.1 rfl,
   (c9_allocate_dynamic_and_clear ⟨4⟩ uint32Max (by decide)).2.2.2.1⟩

/-- C10: a failing `BindConstantBuffer`, `BindBuffer` or `BindRWBuffer` call
leaves the device state — in particular the addressed binding slot's buffer,
byte range and cached descriptor index — exactly as it was: the slot is
mutated only after every validation has passed. -/
theorem c10_bind_failure_no_mutation (dev : DeviceState) (slot : Nat)
    (buf : Option Buffer) (r : Range) :
    (Failed (bindConstantBuffer dev slot buf r).1 →
      (bindConstantBuffer dev slot buf r).2 = dev)
    ∧ (Failed (bindBuffer dev slot buf r).1 → (bindBuffer dev slot buf r).2 = dev)
    ∧ (Failed (bindRWBuffer dev slot buf r).1 → (bindRWBuffer dev slot buf r).2 = dev) := by
  refine ⟨?_, ?_, ?_⟩ <;> intro hf
  · rcases bindConstantBuffer_cases dev slot buf r with hs | he
    · rw [hs] at hf; exact absurd hf (by decide)
    · exact he
  · rcases bindBuffer_cases dev slot buf r with hs | he
    · rw [hs] at hf; exact absurd hf (by decide)
    · exact he
  · rcases bindRWBuffer_cases dev slot buf r with hs | he
    · rw [hs] at hf; exact absurd hf (by decide)
    · exact he

/-- Witness for C10 at a concrete failing input: binding slot 99 is out of
bounds for all three binding classes and the state is unchanged. -/
theorem c10_witness :
    (bindConstantBuffer (initialDeviceState 0) 99 none kFullRange).2 = initialDeviceState 0
    ∧ (bindBuffer (initialDeviceState 0) 99 none kFullRange).2 = initialDeviceState 0
    ∧ (bindRWBuffer (initialDeviceState 0) 99 none kFullRange).2 = initialDeviceState 0 :=
  ⟨(c10_bind_failure_no_mutation (initialDeviceState 0) 99 none kFullRange).1 (by decide),
   (c10_bind_failure_no_mutation (initialDeviceState 0) 99 none kFullRange).2.1 (by decide),
   (c10_bind_failure_no_mutation (initialDeviceState 0) 99 none kFullRange).2.2 (by decide)⟩

/-- C6 counterexample: at group count `(0, 70000, 1)` the claim, read as two
independent implications, requires `DispatchComputeShader` to return
invalid-argument because a dimension exceeds 65535, but the code checks the
zero dimensions first and returns the no-op status `kFalse`. -/
theorem c6_counterexample :
    (dispatchComputeShader (initialDeviceState 0) c6shader ⟨0, 70000, 1⟩).1 = kFalse
    ∧ kFalse ≠ kErrorInvalidArgument := by
  constructor
  · rfl
  · decide

/-- C6 (amended): for a shader of this device, a zero group-count dimension
returns the no-op status with the state untouched; otherwise a dimension above
65535 returns invalid-argument with the state untouched; in both cases no
dispatch (or any other) command is recorded. -/
theorem c6_dispatch_bounds (dev : DeviceState) (shader : Shader) (g : UintVec3)
    (hdev : shader.device = dev.selfId) :
    (g.x = 0 ∨ g.y = 0 ∨ g.z = 0 →
      dispatchComputeShader dev shader g = (kFalse, dev))
    ∧ (¬(g.x = 0 ∨ g.y = 0 ∨ g.z = 0) →
       ¬(g.x ≤ uint16Max ∧ g.y ≤ uint16Max ∧ g.z ≤ uint16Max) →
      dispatchComputeShader dev shader g = (kErrorInvalidArgument, dev)) := by
  constructor
  · intro hz
    unfold dispatchComputeShader
    rw [if_neg (by simp [hdev]), if_pos hz]
  · intro hz hover
    unfold dispatchComputeShader
    rw [if_neg (by simp [hdev]), if_neg hz, if_pos hover]

/-- Witness for C6 at concrete group counts `(0, 1, 1)` and `(70000, 1, 1)`. -/
theorem c6_witness :
    dispatchComputeShader (initialDeviceState 0) c6shader ⟨0, 1, 1⟩ =
      (kFalse, initialDeviceState 0)
    ∧ dispatchComputeShader (initialDeviceState 0) c6shader ⟨70000, 1, 1⟩ =
      (kErrorInvalidArgument, initialDeviceState 0) :=
  ⟨(c6_dispatch_bounds (initialDeviceState 0) c6shader ⟨0, 1, 1⟩ rfl).1 (by decide),
   (c6_dispatch_bounds (initialDeviceState 0) c6shader ⟨70000, 1, 1⟩ rfl).2
     (by decide) (by decide)⟩

/-- C7 counterexample: `c7buf` is created by buffer creation from `c7desc`
with the Upload strategy, and `WriteMemoryToBuffer` of a 69632-byte payload
(larger than 65536) into it succeeds — the 64 KiB immediate-write limit does
not apply to every destination buffer. -/
theorem c7_counterexample :
    mkBuffer 1 0 c7desc 0 = some c7buf
    ∧ (writeMemoryToBuffer (initialDeviceState 0) ⟨false, 69632⟩ c7buf 0 0).1 = kSuccess
    ∧ (69632 : Nat) > 65536
    ∧ kSuccess ≠ kErrorInvalidArgument := by
  refine ⟨by decide, rfl, by decide, by decide⟩

/-- C7 (amended): for a Default-strategy destination buffer, every
`WriteMemoryToBuffer` call whose payload exceeds 65536 bytes returns
invalid-argument and leaves the device state unchanged (nothing is recorded
or written); Upload-strategy destinations are not subject to this limit. -/
theorem c7_write_payload_limit (dev : DeviceState) (srcData : ConstDataSpan)
    (dstBuf : Buffer) (dstByteOffset : Nat) (commandFlags : Nat)
    (hstrat : dstBuf.strategy = .kDefault) (hsize : srcData.size > 65536) :
    writeMemoryToBuffer dev srcData dstBuf dstByteOffset commandFlags =
      (kErrorInvalidArgument, dev) := by
  unfold writeMemoryToBuffer
  by_cases hd : ¬(dstBuf.device = dev.selfId)
  · rw [if_pos hd]
  rw [if_neg hd]
  by_cases hm : dev.userMapped.contains dstBuf.id
  · rw [if_pos hm]
  rw [if_neg hm]
  rw [if_neg (by omega : ¬srcData.size = 0)]
  by_cases hn : srcData.isNull
  · rw [if_pos hn]
  rw [if_neg hn]
  by_cases h4 : ¬(srcData.size % 4 = 0)
  · rw [if_pos h4]
  rw [if_neg h4]
  by_cases hb : ¬(dstByteOffset < dstBuf.size ∧ addW dstByteOffset srcData.size ≤ dstBuf.size)
  · rw [if_pos hb]
  rw [if_neg hb]
  rw [if_neg (by rw [hstrat]; decide : ¬dstBuf.strategy = BufferStrategy.kUpload),
      if_pos hstrat, if_pos (by omega : ¬srcData.size ≤ 0x10000)]

/-- Witness for C7 (amended) at a concrete Default-strategy buffer and a
68 KiB payload. -/
theorem c7_witness :
    writeMemoryToBuffer (initialDeviceState 0) ⟨false, 69632⟩ c7defBuf 0 0 =
      (kErrorInvalidArgument, initialDeviceState 0) :=
  c7_write_payload_limit (initialDeviceState 0) ⟨false, 69632⟩ c7defBuf 0 0 rfl (by decide)

/-- C3 counterexample: `c3state` is Executing with its fence already
signalled; `WaitForCommandExecution` (the Executing→Idle sub-transition)
completes successfully and clears the usage sets, but the descriptor heaps'
dynamic cursors (7 and 6) and the Binding Cache's cached descriptor index (5)
are left untouched — the claim says they are reset before this sub-transition
is done. -/
theorem c3_counterexample :
    (waitForCommandExecution c3state 0).1 = kSuccess
    ∧ (waitForCommandExecution c3state 0).2.cmdListState = .kNone
    ∧ (waitForCommandExecution c3state 0).2.svHeap.nextDynamicDescriptorIndex = 7
    ∧ (waitForCommandExecution c3state 0).2.siHeap.nextDynamicDescriptorIndex = 6
    ∧ ((waitForCommandExecution c3state 0).2.bindings.cbv 0).descriptorIndex = 5
    ∧ (7 : Nat) ≠ kStaticDescriptorCount
    ∧ (5 : Nat) ≠ uint32Max := by
  refine ⟨rfl, rfl, rfl, rfl, rfl, by decide, by decide⟩

/-- C3 (amended): the Executing→Idle sub-transition, on success, clears the
Resource Usage Tracker and the per-shader usage set while leaving the heap
cursors and binding cache untouched; both descriptor heaps' dynamic cursors
and every cached descriptor index are reset by the subsequent Idle→Recording
sub-transition (`ResetCommandListForRecording`), before recording resumes. -/
theorem c3_executing_to_idle_resets (dev : DeviceState) (timeoutMilliseconds : Nat)
    (hexec : dev.cmdListState = .kExecuting) :
    ((waitForCommandExecution dev timeoutMilliseconds).1 = kSuccess →
      (waitForCommandExecution dev timeoutMilliseconds).2.resourceUsage = []
      ∧ (waitForCommandExecution dev timeoutMilliseconds).2.shaderUsage = []
      ∧ (waitForCommandExecution dev timeoutMilliseconds).2.cmdListState = .kNone
      ∧ (waitForCommandExecution dev timeoutMilliseconds).2.svHeap = dev.svHeap
      ∧ (waitForCommandExecution dev timeoutMilliseconds).2.siHeap = dev.siHeap
      ∧ (waitForCommandExecution dev timeoutMilliseconds).2.bindings = dev.bindings)
    ∧ (∀ dev2 : DeviceState, dev2.cmdListState = .kNone →
        (resetCommandListForRecording dev2).1 = kSuccess
        ∧ (resetCommandListForRecording dev2).2.svHeap = ⟨kStaticDescriptorCount⟩
        ∧ (resetCommandListForRecording dev2).2.siHeap = ⟨kStaticDescriptorCount⟩
        ∧ (∀ i, ((resetCommandListForRecording dev2).2.bindings.cbv i).descriptorIndex
              = uint32Max)
        ∧ (∀ i, ((resetCommandListForRecording dev2).2.bindings.srv i).descriptorIndex
              = uint32Max)
        ∧ (∀ i, ((resetCommandListForRecording dev2).2.bindings.uav i).descriptorIndex
              = uint32Max)
        ∧ (resetCommandListForRecording dev2).2.cmdListState = .kRecording) := by
  constructor
  · intro hs
    unfold waitForCommandExecution at hs ⊢
    by_cases hw : dev.fenceCompletedValue < dev.submittedFenceValue
    · rw [if_pos hw] at hs ⊢
      by_cases ht : timeoutMilliseconds = kTimeoutInfinite
      · rw [if_pos ht] at hs ⊢
        exact ⟨rfl, rfl, rfl, rfl, rfl, rfl⟩
      · rw [if_neg ht] at hs
        exact absurd (show kNotReady = kSuccess from hs) (by decide)
    · rw [if_neg hw] at hs ⊢
      exact ⟨rfl, rfl, rfl, rfl, rfl, rfl⟩
  · intro dev2 _
    exact ⟨rfl, rfl, rfl, fun _ => rfl, fun _ => rfl, fun _ => rfl, rfl⟩

/-- Witness for C3 (amended) at `c3state`: the wait clears the tracker and
usage set, and the subsequent reset for recording restores both cursors to 3
and the cached index of CBV slot 0 to the unset sentinel. -/
theorem c3_witness :
    (waitForCommandExecution c3state 0).2.resourceUsage = []
    ∧ (waitForCommandExecution c3state 0).2.shaderUsage = []
    ∧ (resetCommandListForRecording (waitForCommandExecution c3state 0).2).2.svHeap =
        ⟨kStaticDescriptorCount⟩
    ∧ ((resetCommandListForRecording
          (waitForCommandExecution c3state 0).2).2.bindings.cbv 0).descriptorIndex =
        uint32Max := by
  have h := c3_executing_to_idle_resets c3state 0 rfl
  refine ⟨(h.1 rfl).1, (h.1 rfl).2.1, ?_, ?_⟩
  · exact ((h.2 (waitForCommandExecution c3state 0).2 (h.1 rfl).2.2.1).2.1)
  · exact ((h.2 (waitForCommandExecution c3state 0).2 (h.1 rfl).2.2.1).2.2.2.1 0)

/-- C1 counterexample: `c1buf` is user-mapped in `c1state` (which is in the
Recording state and has no recorded usage for it), so `UseBuffer` fails with
invalid-argument and records nothing, while the claim requires the flags and
state of a not-yet-touched buffer to be recorded. -/
theorem c1_counterexample :
    c1state.cmdListState = .kRecording
    ∧ usageLookup c1state.resourceUsage c1buf.id = none
    ∧ (useBuffer c1state c1buf .copyDest).1 = kErrorInvalidArgument
    ∧ usageLookup (useBuffer c1state c1buf .copyDest).2.resourceUsage c1buf.id = none := by
  refine ⟨rfl, rfl, rfl, rfl⟩

/-- C1 (amended): for a buffer that is not currently user-mapped (a
user-mapped buffer makes `UseBuffer` fail with invalid-argument, recording
nothing), while the command list is Recording: on first touch the usage flags
and state are recorded with no barrier; on a repeated touch of a
Default-strategy buffer a transition barrier is emitted exactly when the
requested state differs from the last recorded one and a read-write hazard
(UAV) barrier exactly when the unordered-access state repeats, while
Upload/Readback/GpuUpload buffers are never barriered; and the recorded flags
are updated by union with the new flags and the last state set to the
requested state. -/
theorem c1_use_buffer_hazards (dev : DeviceState) (buf : Buffer) (s : D3DState)
    (hrec : dev.cmdListState = .kRecording)
    (hnm : dev.userMapped.contains buf.id = false) :
    (usageLookup dev.resourceUsage buf.id = none →
      useBuffer dev buf s =
        (kSuccess, { dev with resourceUsage :=
            dev.resourceUsage ++ [(buf.id, ⟨usageFlagsForState s, s⟩)] }))
    ∧ (∀ u, usageLookup dev.resourceUsage buf.id = some u →
        (useBuffer dev buf s).1 = kSuccess
        ∧ (useBuffer dev buf s).2.resourceUsage =
            usageUpdate dev.resourceUsage buf.id
              (fun rec => ⟨rec.flags ||| usageFlagsForState s, s⟩)
        ∧ (buf.strategy = .kDefault →
            ((useBuffer dev buf s).2.cmds =
               dev.cmds ++ [.resourceBarrierTransition buf.id u.lastState s] ↔
              s ≠ u.lastState)
            ∧ ((useBuffer dev buf s).2.cmds = dev.cmds ++ [.resourceBarrierUAV buf.id] ↔
              (s = u.lastState ∧ s = .unorderedAccess))
            ∧ (s = u.lastState ∧ s ≠ .unorderedAccess →
              (useBuffer dev buf s).2.cmds = dev.cmds))
        ∧ (buf.strategy = .kUpload ∨ buf.strategy = .kReadback ∨ buf.strategy = .kGpuUpload →
            (useBuffer dev buf s).2.cmds = dev.cmds)) := by
  have hnm2 : ¬dev.userMapped.contains buf.id = true := by
    rw [hnm]
    exact Bool.false_ne_true
  constructor
  · intro hnone
    unfold useBuffer
    rw [if_neg hnm2, hnone]
  · intro u hu
    unfold useBuffer
    rw [if_neg hnm2, hu]
    dsimp only
    by_cases hdef : buf.strategy = .kDefault
    · rw [if_pos hdef]
      by_cases hne : s ≠ u.lastState
      · rw [if_pos hne]
        refine ⟨rfl, rfl, fun _ => ⟨?_, ?_, ?_⟩, fun habs => ?_⟩
        · simp [hne]
        · constructor
          · intro hc
            exact absurd (List.append_cancel_left hc) (by simp)
          · rintro ⟨heq, -⟩
            exact absurd heq hne
        · rintro ⟨heq, -⟩
          exact absurd heq hne
        · rcases habs with h | h | h <;> rw [hdef] at h <;> exact absurd h (by decide)
      · rw [if_neg hne]
        push_neg at hne
        by_cases huav : s = .unorderedAccess ∧ u.lastState = .unorderedAccess
        · rw [if_pos huav]
          refine ⟨rfl, rfl, fun _ => ⟨?_, ?_, ?_⟩, fun habs => ?_⟩
          · constructor
            · intro hc
              exact absurd (List.append_cancel_left hc) (by simp)
            · intro hc
              exact absurd hne hc
          · simp [hne, huav.1, huav.2]
          · rintro ⟨-, hnu⟩
            exact absurd huav.1 hnu
          · rcases habs with h | h | h <;> rw [hdef] at h <;> exact absurd h (by decide)
        · rw [if_neg huav]
          refine ⟨rfl, rfl, fun _ => ⟨?_, ?_, ?_⟩, fun habs => ?_⟩
          · constructor
            · intro hc
              exact absurd (List.self_eq_append_right.mp hc) (by simp)
            · intro hc
              exact absurd hne hc
          · constructor
            · intro hc
              exact absurd (List.self_eq_append_right.mp hc) (by simp)
            · rintro ⟨-, hs2⟩
              exact absurd ⟨hs2, hne ▸ hs2⟩ huav
          · intro _
            rfl
          · rcases habs with h | h | h <;> rw [hdef] at h <;> exact absurd h (by decide)
    · rw [if_neg hdef]
      refine ⟨rfl, rfl, fun hd => absurd hd hdef, fun _ => rfl⟩

/-- Witness for C1 (amended): a first touch of `c1buf` on a fresh device
records its usage with no command, and a copy-dest touch after a recorded
copy-source read emits exactly one transition barrier. -/
theorem c1_witness :
    useBuffer (initialDeviceState 0) c1buf .copyDest =
      (kSuccess, { initialDeviceState 0 with resourceUsage :=
          (initialDeviceState 0).resourceUsage ++
            [(c1buf.id, ⟨usageFlagsForState .copyDest, .copyDest⟩)] })
    ∧ (useBuffer c1touchedState c1buf .copyDest).2.cmds =
        c1touchedState.cmds ++ [.resourceBarrierTransition c1buf.id .copySource .copyDest] := by
  constructor
  · exact (c1_use_buffer_hazards (initialDeviceState 0) c1buf .copyDest rfl rfl).1 rfl
  · exact (((c1_use_buffer_hazards c1touchedState c1buf .copyDest rfl rfl).2
      ⟨kResourceUsageFlagRead, .copySource⟩ rfl).2.2.1 rfl).1.mpr (by decide)

/-- C4: an accepted buffer description derives exactly the priority-order
placement strategy (GPU-read-write ⇒ Default, else CPU-sequential-write ⇒
Upload, else CPU-read ⇒ Readback, else Default); and any description with more
than one CPU-access flag, more than one structural kind, a size that is not a
positive multiple of 4, a size not a multiple of a positive derived element
size, or the CPU-read flag combined with any GPU-shader-usage flag, is
rejected with invalid-argument. -/
theorem c4_buffer_strategy_and_validation (desc : BufferDesc) (initialDataSize : Nat) :
    ((initParameters desc initialDataSize).1 = kSuccess →
      (initParameters desc initialDataSize).2 = priorityStrategy desc)
    ∧ ((countBitsSet (desc.flags &&& kBufferUsageMaskCpu) > 1
        ∨ countBitsSet (desc.flags &&&
            (kBufferFlagTyped ||| kBufferFlagStructured ||| kBufferFlagByteAddress)) > 1
        ∨ ¬(desc.size > 0 ∧ desc.size % 4 = 0)
        ∨ (getElementSize desc > 0 ∧ ¬(desc.size % getElementSize desc = 0))
        ∨ (desc.flags &&& kBufferUsageFlagCpuRead ≠ 0
           ∧ desc.flags &&& kBufferUsageMaskShader ≠ 0)) →
      (initParameters desc initialDataSize).1 = kErrorInvalidArgument) := by
  constructor
  · intro h
    exact ((initParameters_main desc initialDataSize).2 h).1
  · intro hdef
    rcases (initParameters_main desc initialDataSize).1 with hs | he
    · exfalso
      obtain ⟨-, hchk⟩ := (initParameters_main desc initialDataSize).2 hs
      obtain ⟨c1, c2, c3, c4, c5, c6, c7, c8, c9, c10, c11, c12, c13, c14⟩ := hchk
      rcases hdef with hd | hd | hd | hd | hd
      · omega
      · omega
      · exact hd c4
      · exact hd.2 (c11 hd.1)
      · obtain ⟨hcr, hsh⟩ := hd
        by_cases hrw : desc.flags &&& kBufferUsageFlagShaderRWResource ≠ 0
        · exact hcr (c12 hrw)
        · push_neg at hrw
          by_cases hsw : desc.flags &&& kBufferUsageFlagCpuSequentialWrite ≠ 0
          · have h2 := countBitsSet_two_low_bits desc.flags hcr hsw
            have c2' : countBitsSet (desc.flags &&& 7) ≤ 1 := c2
            omega
          · push_neg at hsw
            exact hsh (c14 hrw hsw hcr).2
    · exact he

/-- Witness for C4 at concrete descriptions: `c4okDesc` (CPU sequential write
plus copy source) is accepted with the Upload strategy; `c4badDesc` (two
CPU-access flags) is rejected with invalid-argument. -/
theorem c4_witness :
    (initParameters c4okDesc 0).2 = .kUpload
    ∧ (initParameters c4badDesc 0).1 = kErrorInvalidArgument := by
  constructor
  · have h := (c4_buffer_strategy_and_validation c4okDesc 0).1 (by decide)
    rw [h]
    decide
  · exact (c4_buffer_strategy_and_validation c4badDesc 0).2 (Or.inl (by decide))

/-- Reading back the slot just stored by `setCbvSlot`. -/
lemma setCbvSlot_get (dev : DeviceState) (slot : Fin kMaxCBVCount) (b : Binding) :
    (setCbvSlot dev slot b).bindings.cbv slot = b := by
  simp [setCbvSlot]

/-- Reading back the slot just stored by `setSrvSlot`. -/
lemma setSrvSlot_get (dev : DeviceState) (slot : Fin kMaxSRVCount) (b : Binding) :
    (setSrvSlot dev slot b).bindings.srv slot = b := by
  simp [setSrvSlot]

/-- Reading back the slot just stored by `setUavSlot`. -/
lemma setUavSlot_get (dev : DeviceState) (slot : Fin kMaxUAVCount) (b : Binding) :
    (setUavSlot dev slot b).bindings.uav slot = b := by
  simp [setUavSlot]

/-- `UseBuffer` never touches the descriptor heaps. -/
lemma useBuffer_svHeap (dev : DeviceState) (buf : Buffer) (s : D3DState) :
    (useBuffer dev buf s).2.svHeap = dev.svHeap := by
  unfold useBuffer
  repeat' ((try dsimp only); split)
  all_goals rfl

/-- A successful bind call implies the slot index was in bounds (CBV). -/
lemma bindConstantBuffer_success_slot (dev : DeviceState) (slot : Nat) (buf : Option Buffer)
    (r : Range) :
    (bindConstantBuffer dev slot buf r).1 = kSuccess → slot < kMaxCBVCount := by
  by_cases hs : slot < kMaxCBVCount
  · exact fun _ => hs
  · unfold bindConstantBuffer
    rw [dif_neg hs]
    intro h
    exact absurd (show kErrorInvalidArgument = kSuccess from h) (by decide)

/-- A successful bind call implies the slot index was in bounds (SRV). -/
lemma bindBuffer_success_slot (dev : DeviceState) (slot : Nat) (buf : Option Buffer)
    (r : Range) :
    (bindBuffer dev slot buf r).1 = kSuccess → slot < kMaxSRVCount := by
  by_cases hs : slot < kMaxSRVCount
  · exact fun _ => hs
  · unfold bindBuffer
    rw [dif_neg hs]
    intro h
    exact absurd (show kErrorInvalidArgument = kSuccess from h) (by decide)

/-- A successful bind call implies the slot index was in bounds (UAV). -/
lemma bindRWBuffer_success_slot (dev : DeviceState) (slot : Nat) (buf : Option Buffer)
    (r : Range) :
    (bindRWBuffer dev slot buf r).1 = kSuccess → slot < kMaxUAVCount := by
  by_cases hs : slot < kMaxUAVCount
  · exact fun _ => hs
  · unfold bindRWBuffer
    rw [dif_neg hs]
    intro h
    exact absurd (show kErrorInvalidArgument = kSuccess from h) (by decide)

set_option maxHeartbeats 3000000 in
/-- A successful `BindConstantBuffer` of a non-null buffer stores exactly the
normalized range with an unset descriptor index, and the normalized range
passed the 256-byte alignment check. -/
lemma bindConstantBuffer_success_state (dev : DeviceState) (slot : Nat) (buf : Buffer)
    (r : Range) (hs : slot < kMaxCBVCount) :
    (bindConstantBuffer dev slot (some buf) r).1 = kSuccess →
    (bindConstantBuffer dev slot (some buf) r).2 =
      setCbvSlot dev ⟨slot, hs⟩ ⟨some buf, limitRange r buf.size, uint32Max⟩
    ∧ (limitRange r buf.size).first % kConstantBufferDataPlacementAlignment = 0
    ∧ (limitRange r buf.size).count % kConstantBufferDataPlacementAlignment = 0 := by
  unfold bindConstantBuffer
  rw [dif_pos hs]
  repeat' ((try dsimp only); split)
  all_goals intro h
  all_goals try exact absurd (show kErrorInvalidArgument = kSuccess from h) (by decide)
  all_goals try exact absurd (show kFalse = kSuccess from h) (by decide)
  all_goals refine ⟨rfl, ?_, ?_⟩ <;> simp_all

set_option maxHeartbeats 3000000 in
/-- A successful `BindBuffer` of a non-null buffer stores exactly the
normalized range with an unset descriptor index. -/
lemma bindBuffer_success_state (dev : DeviceState) (slot : Nat) (buf : Buffer)
    (r : Range) (hs : slot < kMaxSRVCount) :
    (bindBuffer dev slot (some buf) r).1 = kSuccess →
    (bindBuffer dev slot (some buf) r).2 =
      setSrvSlot dev ⟨slot, hs⟩ ⟨some buf, limitRange r buf.size, uint32Max⟩ := by
  unfold bindBuffer
  rw [dif_pos hs]
  repeat' ((try dsimp only); split)
  all_goals intro h
  all_goals first
    | exact absurd (show kErrorInvalidArgument = kSuccess from h) (by decide)
    | exact absurd (show kFalse = kSuccess from h) (by decide)
    | rfl

set_option maxHeartbeats 3000000 in
/-- A successful `BindRWBuffer` of a non-null buffer stores exactly the
normalized range with an unset descriptor index. -/
lemma bindRWBuffer_success_state (dev : DeviceState) (slot : Nat) (buf : Buffer)
    (r : Range) (hs : slot < kMaxUAVCount) :
    (bindRWBuffer dev slot (some buf) r).1 = kSuccess →
    (bindRWBuffer dev slot (some buf) r).2 =
      setUavSlot dev ⟨slot, hs⟩ ⟨some buf, limitRange r buf.size, uint32Max⟩ := by
  unfold bindRWBuffer
  rw [dif_pos hs]
  repeat' ((try dsimp only); split)
  all_goals intro h
  all_goals first
    | exact absurd (show kErrorInvalidArgument = kSuccess from h) (by decide)
    | exact absurd (show kFalse = kSuccess from h) (by decide)
    | rfl

/-- C5: rebinding the same non-null buffer and range to the same slot right
after a successful bind returns the no-change signal `kFalse` and leaves the
whole device state — in particular the slot's cached descriptor index —
unchanged, for each of the three bind operations; and at dispatch time a slot
whose cached descriptor index is set does not allocate a new dynamic
descriptor (the shader-visible heap cursor is unchanged by its slot
processing). -/
theorem c5_idempotent_rebind (dev : DeviceState) (slot : Nat) (buf : Buffer) (r : Range) :
    ((bindConstantBuffer dev slot (some buf) r).1 = kSuccess →
      bindConstantBuffer (bindConstantBuffer dev slot (some buf) r).2 slot (some buf) r =
        (kFalse, (bindConstantBuffer dev slot (some buf) r).2))
    ∧ ((bindBuffer dev slot (some buf) r).1 = kSuccess →
      bindBuffer (bindBuffer dev slot (some buf) r).2 slot (some buf) r =
        (kFalse, (bindBuffer dev slot (some buf) r).2))
    ∧ ((bindRWBuffer dev slot (some buf) r).1 = kSuccess →
      bindRWBuffer (bindRWBuffer dev slot (some buf) r).2 slot (some buf) r =
        (kFalse, (bindRWBuffer dev slot (some buf) r).2))
    ∧ (∀ i : Fin kMaxCBVCount, (dev.bindings.cbv i).descriptorIndex ≠ uint32Max →
        (processCbvSlot dev i).2.svHeap = dev.svHeap)
    ∧ (∀ i : Fin kMaxSRVCount, (dev.bindings.srv i).descriptorIndex ≠ uint32Max →
        (processSrvSlot dev i).2.svHeap = dev.svHeap)
    ∧ (∀ i : Fin kMaxUAVCount, (dev.bindings.uav i).descriptorIndex ≠ uint32Max →
        (processUavSlot dev i).2.svHeap = dev.svHeap) := by
  refine ⟨?_, ?_, ?_, ?_, ?_, ?_⟩
  · intro h
    have hs := bindConstantBuffer_success_slot dev slot (some buf) r h
    obtain ⟨hstate, ha, hb⟩ := bindConstantBuffer_success_state dev slot buf r hs h
    rw [hstate]
    unfold bindConstantBuffer
    rw [dif_pos hs]
    dsimp only
    rw [if_neg (not_not_intro ⟨ha, hb⟩), setCbvSlot_get]
    simp [sameBuffer]
  · intro h
    have hs := bindBuffer_success_slot dev slot (some buf) r h
    have hstate := bindBuffer_success_state dev slot buf r hs h
    rw [hstate]
    unfold bindBuffer
    rw [dif_pos hs]
    dsimp only
    rw [setSrvSlot_get]
    simp [sameBuffer]
  · intro h
    have hs := bindRWBuffer_success_slot dev slot (some buf) r h
    have hstate := bindRWBuffer_success_state dev slot buf r hs h
    rw [hstate]
    unfold bindRWBuffer
    rw [dif_pos hs]
    dsimp only
    rw [setUavSlot_get]
    simp [sameBuffer]
  · intro i hne
    unfold processCbvSlot
    dsimp only
    repeat' ((try dsimp only); split)
    all_goals first
      | rfl
      | exact useBuffer_svHeap dev _ _
      | exact absurd ‹(dev.bindings.cbv i).descriptorIndex = uint32Max› hne
  · intro i hne
    unfold processSrvSlot
    dsimp only
    repeat' ((try dsimp only); split)
    all_goals first
      | rfl
      | exact useBuffer_svHeap dev _ _
      | exact absurd ‹(dev.bindings.srv i).descriptorIndex = uint32Max› hne
  · intro i hne
    unfold processUavSlot
    dsimp only
    repeat' ((try dsimp only); split)
    all_goals first
      | rfl
      | exact useBuffer_svHeap dev _ _
      | exact absurd ‹(dev.bindings.uav i).descriptorIndex = uint32Max› hne

/-- Witness for C5 at concrete buffers: each of the three bind operations,
after a successful first bind on a fresh device, returns `kFalse` on an
identical rebind, leaving the state unchanged. -/
theorem c5_witness :
    bindConstantBuffer (bindConstantBuffer (initialDeviceState 0) 0 (some c5cbvBuf) kFullRange).2
        0 (some c5cbvBuf) kFullRange =
      (kFalse, (bindConstantBuffer (initialDeviceState 0) 0 (some c5cbvBuf) kFullRange).2)
    ∧ bindBuffer (bindBuffer (initialDeviceState 0) 0 (some c5srvBuf) kFullRange).2
        0 (some c5srvBuf) kFullRange =
      (kFalse, (bindBuffer (initialDeviceState 0) 0 (some c5srvBuf) kFullRange).2)
    ∧ bindRWBuffer (bindRWBuffer (initialDeviceState 0) 0 (some c5uavBuf) kFullRange).2
        0 (some c5uavBuf) kFullRange =
      (kFalse, (bindRWBuffer (initialDeviceState 0) 0 (some c5uavBuf) kFullRange).2) :=
  ⟨(c5_idempotent_rebind (initialDeviceState 0) 0 c5cbvBuf kFullRange).1 (by decide),
   (c5_idempotent_rebind (initialDeviceState 0) 0 c5srvBuf kFullRange).2.1 (by decide),
   (c5_idempotent_rebind (initialDeviceState 0) 0 c5uavBuf kFullRange).2.2.1 (by decide)⟩

set_option maxHeartbeats 3000000 in
/-- A successful `BindRWBuffer` of a non-null buffer implies the buffer has
the GPU-read-write usage flag (validated by the bind). -/
lemma bindRWBuffer_success_flag (dev : DeviceState) (slot : Nat) (buf : Buffer) (r : Range) :
    (bindRWBuffer dev slot (some buf) r).1 = kSuccess →
    buf.flags &&& kBufferUsageFlagShaderRWResource ≠ 0 := by
  unfold bindRWBuffer
  repeat' ((try dsimp only); split)
  all_goals intro h
  all_goals first
    | exact absurd (show kErrorInvalidArgument = kSuccess from h) (by decide)
    | exact absurd (show kFalse = kSuccess from h) (by decide)
    | exact not_not.mp ‹¬¬buf.flags &&& kBufferUsageFlagShaderRWResource ≠ 0›

/-- Fields of a buffer produced by buffer creation: the description flags are
stored verbatim, the strategy is the priority-order one, and a
Default-strategy buffer is not persistently mapped. -/
lemma mkBuffer_fields (i d : Nat) (desc : BufferDesc) (ids : Nat) (buf : Buffer)
    (hc : mkBuffer i d desc ids = some buf) :
    buf.flags = desc.flags
    ∧ buf.strategy = priorityStrategy desc
    ∧ (buf.strategy = .kDefault → buf.persistentlyMapped = false) := by
  unfold mkBuffer at hc
  rcases hp : initParameters desc ids with ⟨res, strat⟩
  rw [hp] at hc
  dsimp only at hc
  by_cases hr : res = kSuccess
  · rw [if_pos hr] at hc
    have hstrat : strat = priorityStrategy desc := by
      have h2 := ((initParameters_main desc ids).2 (by rw [hp]; exact hr)).1
      rw [hp] at h2
      exact h2
    injection hc with hc
    subst hc
    subst hstrat
    refine ⟨rfl, rfl, fun hdef => ?_⟩
    dsimp only at hdef ⊢
    rw [hdef]
  · rw [if_neg hr] at hc
    exact absurd hc (by simp)

/-- C8: for a buffer created by buffer creation and successfully bound into a
read-write (UAV) binding slot, `MapBuffer` always fails with invalid-argument
(on any device state, range and flags: the buffer's Default strategy leaves it
without a persistent mapping, and every `MapBuffer` validation failure returns
invalid-argument), and `WaitForBufferUnused` — the check run by buffer
destruction — fails with invalid-argument on the post-bind state because the
buffer is still bound. -/
theorem c8_map_bound_rw_buffer_fails (desc : BufferDesc) (i d ids slot : Nat)
    (buf : Buffer) (dev : DeviceState) (r : Range)
    (hcreate : mkBuffer i d desc ids = some buf)
    (hbind : (bindRWBuffer dev slot (some buf) r).1 = kSuccess) :
    (∀ (s : DeviceState) (mr : Range) (cpuUsageFlag commandFlags : Nat),
      (mapBuffer s buf mr cpuUsageFlag commandFlags).1 = kErrorInvalidArgument)
    ∧ (waitForBufferUnused (bindRWBuffer dev slot (some buf) r).2 buf).1 =
        kErrorInvalidArgument := by
  have hrw := bindRWBuffer_success_flag dev slot buf r hbind
  obtain ⟨hflags, hstrat, hpm⟩ := mkBuffer_fields i d desc ids buf hcreate
  have hdef : buf.strategy = .kDefault := by
    rw [hstrat]
    unfold priorityStrategy
    rw [if_pos (hflags ▸ hrw)]
  have hpm2 : buf.persistentlyMapped = false := hpm hdef
  constructor
  · intro s mr cpuUsageFlag commandFlags
    unfold mapBuffer
    by_cases h1 : ¬(buf.device = s.selfId)
    · rw [if_pos h1]
    rw [if_neg h1]
    by_cases h2 : s.userMapped.contains buf.id
    · rw [if_pos h2]
    rw [if_neg h2]
    rw [if_pos (show ¬(buf.persistentlyMapped = true) by rw [hpm2]; exact Bool.false_ne_true)]
  · have hs := bindRWBuffer_success_slot dev slot (some buf) r hbind
    have hstate := bindRWBuffer_success_state dev slot buf r hs hbind
    rw [hstate]
    unfold waitForBufferUnused
    rw [if_pos ?hbound]
    case hbound =>
      unfold BindingState.isBufferBound
      have hhold : bindingHolds
          ((setUavSlot dev ⟨slot, hs⟩
              ⟨some buf, limitRange r buf.size, uint32Max⟩).bindings.uav ⟨slot, hs⟩)
          buf.id = true := by
        rw [setUavSlot_get]
        simp [bindingHolds]
      simp only [Bool.or_eq_true, List.any_eq_true]
      exact Or.inr ⟨⟨slot, hs⟩, List.mem_finRange _, hhold⟩

/-- Witness for C8: `c8buf` (a read-write typed buffer created from `c8desc`)
bound into UAV slot 0 of a fresh device cannot be mapped and fails the
destruction-time unused check. -/
theorem c8_witness :
    (mapBuffer c8dev c8buf kFullRange kBufferUsageFlagCpuRead 0).1 = kErrorInvalidArgument
    ∧ (waitForBufferUnused c8dev c8buf).1 = kErrorInvalidArgument := by
  have h := c8_map_bound_rw_buffer_fails c8desc 10 0 0 0 c8buf (initialDeviceState 0)
    kFullRange (by decide) (by decide)
  exact ⟨h.1 c8dev kFullRange kBufferUsageFlagCpuRead 0, h.2⟩

/-- C2 (code bug, evaluated at the failing input): in `c2state` the Upload
buffer `c2buf` has a recorded conflicting GPU usage, and `MapBuffer` is called
with the don't-wait flag while the fence is unsignalled.  The tracker check
fires and `EnsureCommandListState(kNone, 0)` is called as claimed, but
`WaitForCommandExecution`'s positive `kNotReady` is swallowed by
`JD3D12_RETURN_IF_FAILED` (which propagates only negative codes), so the call
returns `kSuccess` — not the claimed not-ready status — with the command list
still Executing and the buffer mapped while the GPU may still access it. -/
theorem c2_dont_wait_not_ready_swallowed :
    isUsed c2state.resourceUsage c2buf.id
      (kResourceUsageFlagWrite ||| kResourceUsageFlagRead) = true
    ∧ (mapBuffer c2state c2buf kFullRange kBufferUsageFlagCpuSequentialWrite
        kCommandFlagDontWait).1 = kSuccess
    ∧ (mapBuffer c2state c2buf kFullRange kBufferUsageFlagCpuSequentialWrite
        kCommandFlagDontWait).2.2.ensureTrace = [(.kNone, 0)]
    ∧ (mapBuffer c2state c2buf kFullRange kBufferUsageFlagCpuSequentialWrite
        kCommandFlagDontWait).2.2.cmdListState = .kExecuting
    ∧ (mapBuffer c2state c2buf kFullRange kBufferUsageFlagCpuSequentialWrite
        kCommandFlagDontWait).2.2.userMapped = [c2buf.id]
    ∧ kSuccess ≠ kNotReady := by
  exact ⟨rfl, rfl, rfl, rfl, rfl, by decide⟩
